import Mathlib

set_option linter.dupNamespace false

/-!
Verification of the AxelarX core contracts (bridge, settlement engine, order book).

The Rust contracts are embedded shallowly: each contract's persistent view state
becomes a Lean structure of association lists and registers, and each operation
handler becomes a function `... → Option Error × State` returning the error (if
any) together with the state exactly as the handler's writes left it.  Amounts,
accounts, timestamps and identifiers are modelled as `Nat`; assets and
transaction hashes as `String`.
-/

namespace AxelarX

/-- Association map from keys to values, with at most one live entry per key
(maintained by `mset`/`mdel`, which filter out the key before writing). -/
abbrev AMap (K V : Type) := List (K × V)

/-- Look up the value stored for a key. -/
def mfind {K V : Type} [DecidableEq K] (m : AMap K V) (k : K) : Option V :=
  (List.find? (fun e => decide (e.1 = k)) m).map (·.2)

/-- Remove any entry for a key. -/
def mdel {K V : Type} [DecidableEq K] (m : AMap K V) (k : K) : AMap K V :=
  m.filter (fun e => decide (¬ e.1 = k))

/-- Store a value for a key, replacing any previous entry. -/
def mset {K V : Type} [DecidableEq K] (m : AMap K V) (k : K) (v : V) : AMap K V :=
  (k, v) :: mdel m k

/-- Numeric lookup defaulting to zero, mirroring `get(..).unwrap_or_default()`. -/
def mget {K : Type} [DecidableEq K] (m : AMap K Nat) (k : K) : Nat :=
  (mfind m k).getD 0

/-- Sum of all values stored in a numeric map. -/
def msum {K : Type} (m : AMap K Nat) : Nat :=
  m.foldr (fun e a => e.2 + a) 0

theorem mfind_nil {K V : Type} [DecidableEq K] (k : K) :
    mfind ([] : AMap K V) k = none := rfl

theorem mfind_cons {K V : Type} [DecidableEq K] (e : K × V) (m : AMap K V) (k : K) :
    mfind (e :: m) k = if e.1 = k then some e.2 else mfind m k := by
  by_cases h : e.1 = k
  · simp [mfind, List.find?, h]
  · simp [mfind, List.find?, h]

theorem mdel_cons {K V : Type} [DecidableEq K] (e : K × V) (m : AMap K V) (k : K) :
    mdel (e :: m) k = if e.1 = k then mdel m k else e :: mdel m k := by
  by_cases h : e.1 = k <;> simp [mdel, List.filter_cons, h]

theorem mfind_mdel_self {K V : Type} [DecidableEq K] (m : AMap K V) (k : K) :
    mfind (mdel m k) k = none := by
  induction m with
  | nil => rfl
  | cons e t ih =>
    rw [mdel_cons]
    by_cases h : e.1 = k
    · simpa [h] using ih
    · rw [if_neg h, mfind_cons, if_neg h]; exact ih

theorem mfind_mdel_ne {K V : Type} [DecidableEq K] (m : AMap K V) (k k' : K)
    (h : k' ≠ k) : mfind (mdel m k) k' = mfind m k' := by
  induction m with
  | nil => rfl
  | cons e t ih =>
    rw [mdel_cons, mfind_cons]
    by_cases he : e.1 = k
    · have h1 : ¬ e.1 = k' := by rw [he]; exact fun hc => h hc.symm
      rw [if_pos he, if_neg h1]; exact ih
    · rw [if_neg he, mfind_cons]
      by_cases he' : e.1 = k'
      · rw [if_pos he', if_pos he']
      · rw [if_neg he', if_neg he']; exact ih

theorem mfind_mset_self {K V : Type} [DecidableEq K] (m : AMap K V) (k : K) (v : V) :
    mfind (mset m k v) k = some v := by
  simp [mset, mfind_cons]

theorem mfind_mset_ne {K V : Type} [DecidableEq K] (m : AMap K V) (k k' : K) (v : V)
    (h : k' ≠ k) : mfind (mset m k v) k' = mfind m k' := by
  have : k ≠ k' := fun hc => h hc.symm
  simp [mset, mfind_cons, this, mfind_mdel_ne m k k' h]

theorem mget_mset_self {K : Type} [DecidableEq K] (m : AMap K Nat) (k : K) (v : Nat) :
    mget (mset m k v) k = v := by
  simp [mget, mfind_mset_self]

theorem mget_mset_ne {K : Type} [DecidableEq K] (m : AMap K Nat) (k k' : K) (v : Nat)
    (h : k' ≠ k) : mget (mset m k v) k' = mget m k' := by
  simp [mget, mfind_mset_ne m k k' v h]

namespace Bridge

/-- Status of a bridge transfer (`TransferStatus` in `bridge/src/lib.rs`). -/
inductive TransferStatus where
  | Pending | Confirming | AwaitingApproval | Approved | Executing
  | Completed | Failed | Refunded | Expired
deriving DecidableEq

/-- Direction of a bridge transfer. -/
inductive TransferDirection where
  | Inbound | Outbound
deriving DecidableEq

/-- Record of one validator's approval of a transfer. -/
structure ValidatorApproval where
  validator : Nat
  approved : Bool
  signature : List Nat
  timestamp : Nat
deriving DecidableEq

/-- Bridge transfer record (`BridgeTransfer` in the source).  External chains
are represented by their numeric `chain_id()`. -/
structure BridgeTransfer where
  id : Nat
  direction : TransferDirection
  source_chain : Nat
  destination_chain : Option Nat
  user : Nat
  external_address : String
  asset : String
  amount : Nat
  fee : Nat
  net_amount : Nat
  source_tx_hash : Option String
  destination_tx_hash : Option String
  status : TransferStatus
  confirmations : Nat
  required_confirmations : Nat
  created_at : Nat
  completed_at : Option Nat
  expires_at : Nat
  approvals : List ValidatorApproval
  approval_threshold : Nat
  error_message : Option String
  retry_count : Nat
deriving DecidableEq

/-- Per-chain configuration.  `supported_assets` keeps only each mapping's
`linera_asset` name, the single field the handlers consult. -/
structure ChainConfig where
  chain : Nat
  is_enabled : Bool
  supported_assets : List String
  min_transfer_amount : Nat
  max_transfer_amount : Nat
  base_fee : Nat
  fee_percentage_bps : Nat
  required_confirmations : Nat
deriving DecidableEq

/-- Validator registration record (`public_key` is never consulted and is
omitted). -/
structure ValidatorConfig where
  address : Nat
  is_active : Bool
  weight : Nat
  registered_at : Nat
deriving DecidableEq

/-- Bridge error type (`BridgeError`); string payloads are dropped. -/
inductive BridgeError where
  | TransferNotFound (transfer_id : Nat)
  | ChainNotConfigured (chain : Nat)
  | ChainDisabled (chain : Nat)
  | AssetNotSupported
  | BelowMinimum (amount minimum : Nat)
  | AboveMaximum (amount maximum : Nat)
  | InsufficientBalance (required available : Nat)
  | AlreadyProcessed
  | Expired
  | InvalidStatus (status : TransferStatus)
  | Unauthorized
  | ValidatorNotFound (address : Nat)
  | AlreadyApproved
  | Paused
  | DuplicateDeposit
  | InvalidAddress
deriving DecidableEq

/-- Bridge contract state (`BridgeState`).  The statistics register, the
per-user transfer index and the fee-collector register are bookkeeping no
handler reads back; they are omitted. -/
structure BState where
  next_transfer_id : Nat
  transfers : AMap Nat BridgeTransfer
  active_transfers : AMap Nat Unit
  expiration_queue : List (Nat × Nat)
  processed_deposits : AMap String Nat
  chain_configs : AMap Nat ChainConfig
  validators : AMap Nat ValidatorConfig
  total_validator_weight : Nat
  approval_threshold_percentage : Nat
  balances : AMap (Nat × String) Nat
  collected_fees : AMap String Nat
  is_paused : Bool
deriving DecidableEq

/-- State installed by `instantiate`. -/
def initState : BState :=
  { next_transfer_id := 1
    transfers := []
    active_transfers := []
    expiration_queue := []
    processed_deposits := []
    chain_configs := []
    validators := []
    total_validator_weight := 0
    approval_threshold_percentage := 67
    balances := []
    collected_fees := []
    is_paused := false }

/-- Outcome paired with the post state; `none` is `Ok(())`. -/
abbrev BRes := Option BridgeError × BState

/-- The 24-hour expiry window, in microsecond timestamps. -/
def dayMicros : Nat := 3600 * 24 * 1000000

/-- Threshold recomputed by `calculate_approval_threshold`. -/
def calculate_approval_threshold (st : BState) : Nat :=
  st.total_validator_weight * st.approval_threshold_percentage / 100

/-- Handler for `InitiateWithdrawal` (`initiate_withdrawal` in the source). -/
def initiate_withdrawal (caller : Option Nat) (now : Nat) (destination_chain : Nat)
    (destination_address asset : String) (amount : Nat) (st : BState) : BRes :=
  match caller with
  | none => (some .Unauthorized, st)
  | some user =>
    match mfind st.chain_configs destination_chain with
    | none => (some (.ChainNotConfigured destination_chain), st)
    | some chain_config =>
      if !chain_config.is_enabled then (some (.ChainDisabled destination_chain), st)
      else if !chain_config.supported_assets.contains asset then
        (some .AssetNotSupported, st)
      else if amount < chain_config.min_transfer_amount then
        (some (.BelowMinimum amount chain_config.min_transfer_amount), st)
      else if chain_config.max_transfer_amount < amount then
        (some (.AboveMaximum amount chain_config.max_transfer_amount), st)
      else if destination_address = "" then (some .InvalidAddress, st)
      else
        let fee := chain_config.base_fee + amount * chain_config.fee_percentage_bps / 10000
        let net_amount := amount - fee
        let current_balance := mget st.balances (user, asset)
        if current_balance < amount then
          (some (.InsufficientBalance amount current_balance), st)
        else
          let transfer_id := st.next_transfer_id
          let transfer : BridgeTransfer :=
            { id := transfer_id
              direction := .Outbound
              source_chain := 0
              destination_chain := some destination_chain
              user := user
              external_address := destination_address
              asset := asset
              amount := amount
              fee := fee
              net_amount := net_amount
              source_tx_hash := none
              destination_tx_hash := none
              status := .AwaitingApproval
              confirmations := 0
              required_confirmations := 0
              created_at := now
              completed_at := none
              expires_at := now + dayMicros
              approvals := []
              approval_threshold := calculate_approval_threshold st
              error_message := none
              retry_count := 0 }
          (none,
            { st with
              balances := mset st.balances (user, asset) (current_balance - amount)
              transfers := mset st.transfers transfer_id transfer
              active_transfers := mset st.active_transfers transfer_id ()
              expiration_queue := st.expiration_queue ++ [(transfer.expires_at, transfer_id)]
              next_transfer_id := transfer_id + 1
              collected_fees :=
                mset st.collected_fees asset (mget st.collected_fees asset + fee) })

/-- Handler for `ReportDeposit` (`report_deposit` in the source). -/
def report_deposit (now : Nat) (source_chain : Nat) (tx_hash source_address : String)
    (recipient : Nat) (asset : String) (amount confirmations : Nat) (st : BState) : BRes :=
  if (mfind st.processed_deposits tx_hash).isSome then (some .DuplicateDeposit, st)
  else
    match mfind st.chain_configs source_chain with
    | none => (some (.ChainNotConfigured source_chain), st)
    | some chain_config =>
      if !chain_config.is_enabled then (some (.ChainDisabled source_chain), st)
      else if !chain_config.supported_assets.contains asset then
        (some .AssetNotSupported, st)
      else
        let fee := chain_config.base_fee + amount * chain_config.fee_percentage_bps / 10000
        let net_amount := amount - fee
        let required_confirmations := chain_config.required_confirmations
        let status : TransferStatus :=
          if required_confirmations ≤ confirmations then .Approved else .Confirming
        let transfer_id := st.next_transfer_id
        let transfer : BridgeTransfer :=
          { id := transfer_id
            direction := .Inbound
            source_chain := source_chain
            destination_chain := none
            user := recipient
            external_address := source_address
            asset := asset
            amount := amount
            fee := fee
            net_amount := net_amount
            source_tx_hash := some tx_hash
            destination_tx_hash := none
            status := status
            confirmations := confirmations
            required_confirmations := required_confirmations
            created_at := now
            completed_at := none
            expires_at := now + dayMicros
            approvals := []
            approval_threshold := calculate_approval_threshold st
            error_message := none
            retry_count := 0 }
        let st1 :=
          { st with
            transfers := mset st.transfers transfer_id transfer
            processed_deposits := mset st.processed_deposits tx_hash transfer_id
            next_transfer_id := transfer_id + 1 }
        if status = .Approved then
          (none,
            { st1 with
              balances :=
                mset st1.balances (recipient, asset)
                  (mget st1.balances (recipient, asset) + net_amount)
              collected_fees :=
                mset st1.collected_fees asset (mget st1.collected_fees asset + fee)
              transfers :=
                mset st1.transfers transfer_id
                  { transfer with status := .Completed, completed_at := some now } })
        else
          (none,
            { st1 with
              active_transfers := mset st1.active_transfers transfer_id ()
              expiration_queue := st1.expiration_queue ++ [(transfer.expires_at, transfer_id)] })

/-- Handler for `UpdateConfirmations` (`update_confirmations` in the source). -/
def update_confirmations (now : Nat) (transfer_id confirmations : Nat) (st : BState) : BRes :=
  match mfind st.transfers transfer_id with
  | none => (some (.TransferNotFound transfer_id), st)
  | some transfer =>
    if transfer.status ≠ .Confirming then (some (.InvalidStatus transfer.status), st)
    else
      let transfer := { transfer with confirmations := confirmations }
      if transfer.required_confirmations ≤ confirmations then
        let transfer := { transfer with status := .Approved }
        if transfer.direction = .Inbound then
          let transfer :=
            { transfer with status := .Completed, completed_at := some now }
          (none,
            { st with
              balances :=
                mset st.balances (transfer.user, transfer.asset)
                  (mget st.balances (transfer.user, transfer.asset) + transfer.net_amount)
              collected_fees :=
                mset st.collected_fees transfer.asset
                  (mget st.collected_fees transfer.asset + transfer.fee)
              active_transfers := mdel st.active_transfers transfer_id
              transfers := mset st.transfers transfer_id transfer })
        else
          (none, { st with transfers := mset st.transfers transfer_id transfer })
      else
        (none, { st with transfers := mset st.transfers transfer_id transfer })

/-- Weight of the approvals recorded on a transfer, each validator's weight
looked up in the current registry (active or not), as in `approve_transfer`. -/
def approvalWeight (validators : AMap Nat ValidatorConfig)
    (approvals : List ValidatorApproval) : Nat :=
  approvals.foldr
    (fun a acc =>
      (match mfind validators a.validator with
       | some config => config.weight
       | none => 0) + acc) 0

/-- Handler for `ApproveTransfer` (`approve_transfer` in the source). -/
def approve_transfer (caller : Option Nat) (now : Nat) (transfer_id : Nat)
    (signature : List Nat) (st : BState) : BRes :=
  match caller with
  | none => (some .Unauthorized, st)
  | some validator =>
    match mfind st.validators validator with
    | none => (some (.ValidatorNotFound validator), st)
    | some validator_config =>
      if !validator_config.is_active then (some .Unauthorized, st)
      else
        match mfind st.transfers transfer_id with
        | none => (some (.TransferNotFound transfer_id), st)
        | some transfer =>
          if transfer.status ≠ .AwaitingApproval ∧ transfer.status ≠ .Approved then
            (some (.InvalidStatus transfer.status), st)
          else if transfer.approvals.any (fun a => a.validator = validator) then
            (some .AlreadyApproved, st)
          else
            let transfer :=
              { transfer with
                approvals := transfer.approvals ++
                  [{ validator := validator, approved := true, signature := signature
                     timestamp := now }] }
            let approval_weight := approvalWeight st.validators transfer.approvals
            let required_weight :=
              st.total_validator_weight * st.approval_threshold_percentage / 100
            let transfer :=
              if required_weight ≤ approval_weight then
                { transfer with status := .Approved }
              else transfer
            (none, { st with transfers := mset st.transfers transfer_id transfer })

/-- Handler for `ExecuteTransfer` (`execute_transfer` in the source). -/
def execute_transfer (now : Nat) (transfer_id : Nat) (st : BState) : BRes :=
  match mfind st.transfers transfer_id with
  | none => (some (.TransferNotFound transfer_id), st)
  | some transfer =>
    if transfer.status ≠ .Approved then (some (.InvalidStatus transfer.status), st)
    else if transfer.expires_at < now then (some .Expired, st)
    else
      (none,
        { st with
          transfers := mset st.transfers transfer_id { transfer with status := .Executing } })

/-- Handler for `CompleteWithdrawal` (`complete_withdrawal` in the source).
Note that the source checks only the transfer's direction, never its status. -/
def complete_withdrawal (now : Nat) (transfer_id : Nat) (tx_hash : String)
    (success : Bool) (st : BState) : BRes :=
  match mfind st.transfers transfer_id with
  | none => (some (.TransferNotFound transfer_id), st)
  | some transfer =>
    if transfer.direction ≠ .Outbound then (some (.InvalidStatus transfer.status), st)
    else if success then
      let transfer :=
        { transfer with
          status := .Completed, destination_tx_hash := some tx_hash
          completed_at := some now }
      (none,
        { st with
          transfers := mset st.transfers transfer_id transfer
          active_transfers := mdel st.active_transfers transfer_id })
    else
      let transfer :=
        { transfer with
          status := .Failed
          error_message := some "Transaction failed on destination chain" }
      (none,
        { st with
          balances :=
            mset st.balances (transfer.user, transfer.asset)
              (mget st.balances (transfer.user, transfer.asset) + transfer.net_amount)
          transfers := mset st.transfers transfer_id transfer
          active_transfers := mdel st.active_transfers transfer_id })

/-- Handler for `ClaimRefund` (`claim_refund` in the source).  The
auto-expiry arm of the `can_refund` match fires for any status once
`now > expires_at`, and the `Refunded` guard sits after that rewrite. -/
def claim_refund (caller : Option Nat) (now : Nat) (transfer_id : Nat) (st : BState) : BRes :=
  match caller with
  | none => (some .Unauthorized, st)
  | some who =>
    match mfind st.transfers transfer_id with
    | none => (some (.TransferNotFound transfer_id), st)
    | some transfer =>
      if transfer.user ≠ who then (some .Unauthorized, st)
      else
        let expired := transfer.expires_at < now
        let can_refund :=
          transfer.status = .Failed ∨ transfer.status = .Expired ∨ expired
        let transfer :=
          if transfer.status ≠ .Failed ∧ transfer.status ≠ .Expired ∧ expired then
            { transfer with status := .Expired }
          else transfer
        if ¬ can_refund then (some (.InvalidStatus transfer.status), st)
        else if transfer.status = .Refunded then (some .AlreadyProcessed, st)
        else
          let balances :=
            if transfer.direction = .Outbound then
              mset st.balances (transfer.user, transfer.asset)
                (mget st.balances (transfer.user, transfer.asset) + transfer.net_amount)
            else st.balances
          let transfer :=
            { transfer with status := .Refunded, completed_at := some now }
          (none,
            { st with
              balances := balances
              transfers := mset st.transfers transfer_id transfer
              active_transfers := mdel st.active_transfers transfer_id })

/-- Statuses that `process_expired_transfers` moves to `Expired`. -/
def expirable (s : TransferStatus) : Bool :=
  match s with
  | .Pending | .Confirming | .AwaitingApproval | .Executing => true
  | _ => false

/-- Loop body of `process_expired_transfers`, recursing on the expiration
queue with the processed counter capped at 10. -/
def processLoop (now : Nat) : List (Nat × Nat) → Nat → BState → BState
  | [], _, st => { st with expiration_queue := [] }
  | (expires_at, transfer_id) :: rest, processed, st =>
    if 10 ≤ processed then { st with expiration_queue := (expires_at, transfer_id) :: rest }
    else if now < expires_at then
      { st with expiration_queue := (expires_at, transfer_id) :: rest }
    else
      match mfind st.transfers transfer_id with
      | none => processLoop now rest processed st
      | some transfer =>
        if expirable transfer.status then
          processLoop now rest (processed + 1)
            { st with
              transfers := mset st.transfers transfer_id { transfer with status := .Expired }
              active_transfers := mdel st.active_transfers transfer_id }
        else processLoop now rest processed st

/-- Handler for `ProcessExpiredTransfers` (`process_expired_transfers`). -/
def process_expired_transfers (now : Nat) (st : BState) : BRes :=
  (none, processLoop now st.expiration_queue 0 st)

/-- Handler for `ConfigureChain` (`configure_chain`). -/
def configure_chain (config : ChainConfig) (st : BState) : BRes :=
  (none, { st with chain_configs := mset st.chain_configs config.chain config })

/-- Handler for `DisableChain` (`disable_chain`). -/
def disable_chain (chain : Nat) (st : BState) : BRes :=
  match mfind st.chain_configs chain with
  | none => (some (.ChainNotConfigured chain), st)
  | some config =>
    (none,
      { st with chain_configs := mset st.chain_configs chain { config with is_enabled := false } })

/-- Handler for `AddValidator` (`add_validator`).  The weight is added to the
running total unconditionally, whether or not the validator is active and
whether or not it was already registered. -/
def add_validator (config : ValidatorConfig) (st : BState) : BRes :=
  (none,
    { st with
      total_validator_weight := st.total_validator_weight + config.weight
      validators := mset st.validators config.address config })

/-- Handler for `RemoveValidator` (`remove_validator`). -/
def remove_validator (validator : Nat) (st : BState) : BRes :=
  match mfind st.validators validator with
  | none => (some (.ValidatorNotFound validator), st)
  | some config =>
    (none,
      { st with
        total_validator_weight := st.total_validator_weight - config.weight
        validators := mdel st.validators validator })

/-- Handler for `UpdateFees` (`update_fees`). -/
def update_fees (chain : Nat) (base_fee fee_percentage_bps : Option Nat) (st : BState) : BRes :=
  match mfind st.chain_configs chain with
  | none => (some (.ChainNotConfigured chain), st)
  | some config =>
    let config := match base_fee with | some fee => { config with base_fee := fee } | none => config
    let config :=
      match fee_percentage_bps with
      | some bps => { config with fee_percentage_bps := bps }
      | none => config
    (none, { st with chain_configs := mset st.chain_configs chain config })

/-- The bridge operation surface (`Operation` in the source). -/
inductive BridgeOp where
  | InitiateWithdrawal (destination_chain : Nat) (destination_address asset : String)
      (amount : Nat)
  | ReportDeposit (source_chain : Nat) (tx_hash source_address : String) (recipient : Nat)
      (asset : String) (amount confirmations : Nat)
  | UpdateConfirmations (transfer_id confirmations : Nat)
  | ApproveTransfer (transfer_id : Nat) (signature : List Nat)
  | ExecuteTransfer (transfer_id : Nat)
  | CompleteWithdrawal (transfer_id : Nat) (tx_hash : String) (success : Bool)
  | ClaimRefund (transfer_id : Nat)
  | ProcessExpiredTransfers
  | ConfigureChain (config : ChainConfig)
  | DisableChain (chain : Nat)
  | AddValidator (config : ValidatorConfig)
  | RemoveValidator (validator : Nat)
  | UpdateFees (chain : Nat) (base_fee fee_percentage_bps : Option Nat)
  | EmergencyPause
  | Resume
deriving DecidableEq

/-- Dispatcher mirroring `execute_operation`, including the pause gate. -/
def execOp (caller : Option Nat) (now : Nat) (op : BridgeOp) (st : BState) : BRes :=
  if st.is_paused ∧ op ≠ .EmergencyPause ∧ op ≠ .Resume then (some .Paused, st)
  else
    match op with
    | .InitiateWithdrawal c a s m => initiate_withdrawal caller now c a s m st
    | .ReportDeposit c h sa r a m cf => report_deposit now c h sa r a m cf st
    | .UpdateConfirmations t cf => update_confirmations now t cf st
    | .ApproveTransfer t sg => approve_transfer caller now t sg st
    | .ExecuteTransfer t => execute_transfer now t st
    | .CompleteWithdrawal t h s => complete_withdrawal now t h s st
    | .ClaimRefund t => claim_refund caller now t st
    | .ProcessExpiredTransfers => process_expired_transfers now st
    | .ConfigureChain c => configure_chain c st
    | .DisableChain c => disable_chain c st
    | .AddValidator c => add_validator c st
    | .RemoveValidator v => remove_validator v st
    | .UpdateFees c b f => update_fees c b f st
    | .EmergencyPause => (none, { st with is_paused := true })
    | .Resume => (none, { st with is_paused := false })

end Bridge

/-- Amount an outbound transfer currently holds locked inside the bridge:
the user has been debited and the funds have neither been paid out
externally nor handed back.  This is the bridge reading of the spec's
`locked` component (§4.1, §8.1). -/
def Bridge.lockedAmount (t : Bridge.BridgeTransfer) : Nat :=
  if t.direction = .Outbound ∧
      (t.status = .AwaitingApproval ∨ t.status = .Approved ∨ t.status = .Executing) then
    t.net_amount
  else 0

namespace Bridge

/-- Total net amount locked in in-flight outbound transfers. -/
def lockedTotal (st : BState) : Nat :=
  st.transfers.foldr (fun e a => lockedAmount e.2 + a) 0

/-- Total external value deposited into the bridge: the full `amount` of
every completed inbound transfer. -/
def depositsTotal (st : BState) : Nat :=
  st.transfers.foldr
    (fun e a =>
      (if e.2.direction = .Inbound ∧ e.2.status = .Completed then e.2.amount else 0) + a) 0

/-- Total external value withdrawn from the bridge: the `net_amount` of
every completed outbound transfer. -/
def withdrawalsTotal (st : BState) : Nat :=
  st.transfers.foldr
    (fun e a =>
      (if e.2.direction = .Outbound ∧ e.2.status = .Completed then e.2.net_amount else 0) + a) 0

/-- Conservation of value for the bridge ledger, the spec's §8.1 invariant
summed over all assets and rearranged over `Nat`:
free + locked + collected fees + external withdrawals = external deposits.
(The bridge has no settlement escrow, so the escrow term is absent.) -/
def conservation (st : BState) : Prop :=
  msum st.balances + lockedTotal st + msum st.collected_fees + withdrawalsTotal st =
    depositsTotal st

instance (st : BState) : Decidable (conservation st) := by
  unfold conservation
  infer_instance

/-- Modelled from the spec (§3.2): the total validator weight as the sum of
the ACTIVE validators' weights only, for comparison with the
implementation's `total_validator_weight` register. -/
def activeTotalWeight (st : BState) : Nat :=
  st.validators.foldr (fun e a => (if e.2.is_active then e.2.weight else 0) + a) 0

/-- Modelled from the spec (§4.4.1): approval weight counting only
validators that are currently registered AND active. -/
def activeApprovalWeight (validators : AMap Nat ValidatorConfig)
    (approvals : List ValidatorApproval) : Nat :=
  approvals.foldr
    (fun a acc =>
      (match mfind validators a.validator with
       | some config => if config.is_active then config.weight else 0
       | none => 0) + acc) 0

/-- Status of a stored transfer, if present. -/
def transferStatusAt (st : BState) (transfer_id : Nat) : Option TransferStatus :=
  (mfind st.transfers transfer_id).map (·.status)

/-- Expiry of a stored transfer, defaulting to 0 when absent. -/
def transferExpiryAt (st : BState) (transfer_id : Nat) : Nat :=
  ((mfind st.transfers transfer_id).map (·.expires_at)).getD 0

/-- Deposit-deduplication invariant over a transfers map and the processed
deposits index: every transfer's source hash is registered in the index,
and no two distinct transfer entries carry the same source hash. -/
def DepositInvOn (transfers : AMap Nat BridgeTransfer)
    (processed : AMap String Nat) : Prop :=
  (∀ e ∈ transfers, ∀ h : String, e.2.source_tx_hash = some h →
    (mfind processed h).isSome) ∧
  (∀ e1 ∈ transfers, ∀ e2 ∈ transfers, ∀ h : String,
    e1.2.source_tx_hash = some h → e2.2.source_tx_hash = some h → e1.1 = e2.1)

/-- The deduplication invariant of a bridge state. -/
def DepositInv (st : BState) : Prop :=
  DepositInvOn st.transfers st.processed_deposits

instance (transfers : AMap Nat BridgeTransfer) (processed : AMap String Nat) :
    Decidable (DepositInvOn transfers processed) := by
  unfold DepositInvOn
  exact instDecidableAnd

instance (st : BState) : Decidable (DepositInv st) := by
  unfold DepositInv
  infer_instance

end Bridge

namespace Settlement

/-- Settlement status (`SettlementStatus` in `settlement/src/lib.rs`). -/
inductive SettlementStatus where
  | Pending | MakerEscrowed | TakerEscrowed | FullyEscrowed | Executing
  | Completed | Failed | Refunded | Expired | Cancelled
deriving DecidableEq

/-- Escrow bookkeeping for one party (`EscrowState`). -/
structure EscrowState where
  is_escrowed : Bool
  amount : Nat
  asset : String
  escrowed_at : Option Nat
  tx_hash : Option String
deriving DecidableEq

/-- Default escrow state (`EscrowState::default()`). -/
def EscrowState.default : EscrowState :=
  { is_escrowed := false, amount := 0, asset := "", escrowed_at := none, tx_hash := none }

/-- Settlement record (`Settlement`); the two `ChainId` fields are never
consulted by a handler and are omitted. -/
structure Settlement where
  id : Nat
  trade_id : Nat
  maker : Nat
  taker : Nat
  maker_asset : String
  taker_asset : String
  maker_amount : Nat
  taker_amount : Nat
  maker_escrow : EscrowState
  taker_escrow : EscrowState
  status : SettlementStatus
  created_at : Nat
  expires_at : Nat
  completed_at : Option Nat
  failure_reason : Option String
  retry_count : Nat
deriving DecidableEq

/-- Settlement error type (`SettlementError`); string payloads are dropped. -/
inductive SettlementError where
  | SettlementNotFound (settlement_id : Nat)
  | InvalidStatus (expected actual : SettlementStatus)
  | SettlementExpired (expired_at : Nat)
  | Unauthorized
  | InsufficientBalance (required available : Nat)
  | AlreadyEscrowed
  | CannotCancel
deriving DecidableEq

/-- Settlement engine state (`SettlementState`), restricted to the containers
the settlement handlers touch; the bridge-transfer containers and the
statistics register are independent bookkeeping and are omitted. -/
structure SState where
  next_settlement_id : Nat
  settlements : AMap Nat Settlement
  active_settlements : AMap Nat Unit
  expiration_queue : List (Nat × Nat)
  balances : AMap (Nat × String) Nat
  escrowed_balances : AMap (Nat × Nat × String) Nat
deriving DecidableEq

/-- State installed by `instantiate`. -/
def initState : SState :=
  { next_settlement_id := 1
    settlements := []
    active_settlements := []
    expiration_queue := []
    balances := []
    escrowed_balances := [] }

/-- Outcome paired with the post state; `none` is `Ok(())`. -/
abbrev SRes := Option SettlementError × SState

/-- Handler for `Deposit` (`deposit` in the source). -/
def deposit (caller : Option Nat) (asset : String) (amount : Nat) (st : SState) : SRes :=
  match caller with
  | none => (some .Unauthorized, st)
  | some user =>
    (none,
      { st with
        balances := mset st.balances (user, asset) (mget st.balances (user, asset) + amount) })

/-- Handler for `InitiateSettlement` (`initiate_settlement` in the source);
`timeout` is already in timestamp units. -/
def initiate_settlement (now : Nat) (trade_id maker taker : Nat)
    (maker_asset taker_asset : String) (maker_amount taker_amount timeout : Nat)
    (st : SState) : SRes :=
  let settlement_id := st.next_settlement_id
  let expires_at := now + timeout
  let settlement : Settlement :=
    { id := settlement_id
      trade_id := trade_id
      maker := maker
      taker := taker
      maker_asset := maker_asset
      taker_asset := taker_asset
      maker_amount := maker_amount
      taker_amount := taker_amount
      maker_escrow := EscrowState.default
      taker_escrow := EscrowState.default
      status := .Pending
      created_at := now
      expires_at := expires_at
      completed_at := none
      failure_reason := none
      retry_count := 0 }
  (none,
    { st with
      settlements := mset st.settlements settlement_id settlement
      active_settlements := mset st.active_settlements settlement_id ()
      expiration_queue := st.expiration_queue ++ [(expires_at, settlement_id)]
      next_settlement_id := settlement_id + 1 })

/-- Handler for `ExecuteSettlement` (`execute_settlement` in the source).
On observing expiry it writes `Expired` into the map and then errors,
without touching the escrow ledger. -/
def execute_settlement (now : Nat) (settlement_id : Nat) (st : SState) : SRes :=
  match mfind st.settlements settlement_id with
  | none => (some (.SettlementNotFound settlement_id), st)
  | some settlement =>
    if settlement.status ≠ .FullyEscrowed then
      (some (.InvalidStatus .FullyEscrowed settlement.status), st)
    else if settlement.expires_at < now then
      (some (.SettlementExpired settlement.expires_at),
        { st with
          settlements :=
            mset st.settlements settlement_id { settlement with status := .Expired } })
    else
      let st :=
        { st with
          settlements :=
            mset st.settlements settlement_id { settlement with status := .Executing } }
      let maker_escrow_key := (settlement_id, settlement.maker, settlement.maker_asset)
      let maker_escrowed := mget st.escrowed_balances maker_escrow_key
      let taker_balance_key := (settlement.taker, settlement.maker_asset)
      let st :=
        { st with
          balances :=
            mset st.balances taker_balance_key
              (mget st.balances taker_balance_key + maker_escrowed)
          escrowed_balances := mdel st.escrowed_balances maker_escrow_key }
      let taker_escrow_key := (settlement_id, settlement.taker, settlement.taker_asset)
      let taker_escrowed := mget st.escrowed_balances taker_escrow_key
      let maker_balance_key := (settlement.maker, settlement.taker_asset)
      let st :=
        { st with
          balances :=
            mset st.balances maker_balance_key
              (mget st.balances maker_balance_key + taker_escrowed)
          escrowed_balances := mdel st.escrowed_balances taker_escrow_key }
      (none,
        { st with
          settlements :=
            mset st.settlements settlement_id
              { settlement with status := .Completed, completed_at := some now }
          active_settlements := mdel st.active_settlements settlement_id })

/-- Handler for `ConfirmEscrow` (`confirm_escrow` in the source), including
the auto-execution of a fully escrowed settlement in the same operation. -/
def confirm_escrow (caller : Option Nat) (now : Nat) (settlement_id : Nat)
    (st : SState) : SRes :=
  match caller with
  | none => (some .Unauthorized, st)
  | some who =>
    match mfind st.settlements settlement_id with
    | none => (some (.SettlementNotFound settlement_id), st)
    | some settlement =>
      if settlement.expires_at < now then
        (some (.SettlementExpired settlement.expires_at), st)
      else if who = settlement.maker then
        if settlement.maker_escrow.is_escrowed then (some .AlreadyEscrowed, st)
        else confirmWith who true settlement.maker_asset settlement.maker_amount
          now settlement_id settlement st
      else if who = settlement.taker then
        if settlement.taker_escrow.is_escrowed then (some .AlreadyEscrowed, st)
        else confirmWith who false settlement.taker_asset settlement.taker_amount
          now settlement_id settlement st
      else (some .Unauthorized, st)
where
  /-- Shared tail of `confirm_escrow` after the party dispatch. -/
  confirmWith (who : Nat) (is_maker : Bool) (asset : String) (amount : Nat)
      (now settlement_id : Nat) (settlement : Settlement) (st : SState) : SRes :=
    let current_balance := mget st.balances (who, asset)
    if current_balance < amount then
      (some (.InsufficientBalance amount current_balance), st)
    else
      let st :=
        { st with
          balances := mset st.balances (who, asset) (current_balance - amount)
          escrowed_balances :=
            mset st.escrowed_balances (settlement_id, who, asset) amount }
      let escrow_state : EscrowState :=
        { is_escrowed := true, amount := amount, asset := asset
          escrowed_at := some now, tx_hash := none }
      let settlement :=
        if is_maker then
          { settlement with
            maker_escrow := escrow_state
            status :=
              if settlement.taker_escrow.is_escrowed then .FullyEscrowed
              else .MakerEscrowed }
        else
          { settlement with
            taker_escrow := escrow_state
            status :=
              if settlement.maker_escrow.is_escrowed then .FullyEscrowed
              else .TakerEscrowed }
      let st := { st with settlements := mset st.settlements settlement_id settlement }
      if settlement.status = .FullyEscrowed then
        execute_settlement now settlement_id st
      else (none, st)

/-- Helper `process_refund`: return every escrowed party's ledger entry to
its free balance and delete the entry (the `is_escrowed` flags are not
reset, exactly as in the source). -/
def process_refund (settlement : Settlement) (st : SState) : SState :=
  let st :=
    if settlement.maker_escrow.is_escrowed then
      let escrow_key := (settlement.id, settlement.maker, settlement.maker_asset)
      let escrowed := mget st.escrowed_balances escrow_key
      if 0 < escrowed then
        let balance_key := (settlement.maker, settlement.maker_asset)
        { st with
          balances := mset st.balances balance_key (mget st.balances balance_key + escrowed)
          escrowed_balances := mdel st.escrowed_balances escrow_key }
      else st
    else st
  if settlement.taker_escrow.is_escrowed then
    let escrow_key := (settlement.id, settlement.taker, settlement.taker_asset)
    let escrowed := mget st.escrowed_balances escrow_key
    if 0 < escrowed then
      let balance_key := (settlement.taker, settlement.taker_asset)
      { st with
        balances := mset st.balances balance_key (mget st.balances balance_key + escrowed)
        escrowed_balances := mdel st.escrowed_balances escrow_key }
    else st
  else st

/-- Handler for `CancelSettlement` (`cancel_settlement` in the source). -/
def cancel_settlement (caller : Option Nat) (settlement_id : Nat) (reason : String)
    (st : SState) : SRes :=
  match caller with
  | none => (some .Unauthorized, st)
  | some who =>
    match mfind st.settlements settlement_id with
    | none => (some (.SettlementNotFound settlement_id), st)
    | some settlement =>
      if who ≠ settlement.maker ∧ who ≠ settlement.taker then (some .Unauthorized, st)
      else
        match settlement.status with
        | .Pending | .MakerEscrowed | .TakerEscrowed =>
          let st := process_refund settlement st
          (none,
            { st with
              settlements :=
                mset st.settlements settlement_id
                  { settlement with status := .Cancelled, failure_reason := some reason }
              active_settlements := mdel st.active_settlements settlement_id })
        | _ => (some .CannotCancel, st)

/-- Handler for `ClaimRefund` (`claim_refund` in the source).  The
auto-expiry arm writes the `Expired` status into the settlements map before
the caller's escrow is even examined. -/
def claim_refund (caller : Option Nat) (now : Nat) (settlement_id : Nat)
    (st : SState) : SRes :=
  match caller with
  | none => (some .Unauthorized, st)
  | some who =>
    match mfind st.settlements settlement_id with
    | none => (some (.SettlementNotFound settlement_id), st)
    | some settlement =>
      if who ≠ settlement.maker ∧ who ≠ settlement.taker then (some .Unauthorized, st)
      else
        let terminal :=
          settlement.status = .Expired ∨ settlement.status = .Failed ∨
            settlement.status = .Cancelled
        let expired := settlement.expires_at < now
        let can_refund := terminal ∨ expired
        let settlement :=
          if ¬ terminal ∧ expired then { settlement with status := .Expired }
          else settlement
        let st :=
          if ¬ terminal ∧ expired then
            { st with settlements := mset st.settlements settlement_id settlement }
          else st
        if ¬ can_refund then (some .CannotCancel, st)
        else if who = settlement.maker ∧ settlement.maker_escrow.is_escrowed then
          refundCaller who settlement.maker_asset settlement_id settlement st
        else if who = settlement.taker ∧ settlement.taker_escrow.is_escrowed then
          refundCaller who settlement.taker_asset settlement_id settlement st
        else (some (.InsufficientBalance 0 0), st)
where
  /-- Shared tail of `claim_refund` once the caller's escrow is identified. -/
  refundCaller (who : Nat) (asset : String) (settlement_id : Nat)
      (settlement : Settlement) (st : SState) : SRes :=
    let escrow_key := (settlement_id, who, asset)
    let escrowed := mget st.escrowed_balances escrow_key
    let (settlement, st) :=
      if 0 < escrowed then
        let balance_key := (who, asset)
        let st :=
          { st with
            balances := mset st.balances balance_key (mget st.balances balance_key + escrowed)
            escrowed_balances := mdel st.escrowed_balances escrow_key }
        let settlement :=
          if who = settlement.maker then
            { settlement with maker_escrow := { settlement.maker_escrow with is_escrowed := false } }
          else
            { settlement with taker_escrow := { settlement.taker_escrow with is_escrowed := false } }
        (settlement, st)
      else (settlement, st)
    let (settlement, st) :=
      if ¬ settlement.maker_escrow.is_escrowed ∧ ¬ settlement.taker_escrow.is_escrowed then
        ({ settlement with status := .Refunded },
          { st with active_settlements := mdel st.active_settlements settlement_id })
      else (settlement, st)
    (none, { st with settlements := mset st.settlements settlement_id settlement })

/-- Loop body of `process_expired_settlements`, recursing on the expiration
queue with the processed counter capped at 10. -/
def expireLoop (now : Nat) : List (Nat × Nat) → Nat → SState → SState
  | [], _, st => { st with expiration_queue := [] }
  | (expires_at, settlement_id) :: rest, processed, st =>
    if 10 ≤ processed then
      { st with expiration_queue := (expires_at, settlement_id) :: rest }
    else if now < expires_at then
      { st with expiration_queue := (expires_at, settlement_id) :: rest }
    else
      match mfind st.settlements settlement_id with
      | none => expireLoop now rest processed st
      | some settlement =>
        if settlement.status ≠ .Completed ∧ settlement.status ≠ .Refunded ∧
            settlement.status ≠ .Cancelled then
          let st := process_refund settlement st
          expireLoop now rest (processed + 1)
            { st with
              settlements :=
                mset st.settlements settlement_id { settlement with status := .Expired }
              active_settlements := mdel st.active_settlements settlement_id }
        else expireLoop now rest processed st

/-- Handler for `ProcessExpiredSettlements` (`process_expired_settlements`). -/
def process_expired_settlements (now : Nat) (st : SState) : SRes :=
  (none, expireLoop now st.expiration_queue 0 st)

end Settlement

namespace OrderBook

/-- Order side (`OrderSide` in `orderbook/src/lib.rs`). -/
inductive OrderSide where
  | Buy | Sell
deriving DecidableEq

/-- Order type with stop triggers carried in the variant payload. -/
inductive OrderType where
  | Limit | Market
  | StopLoss (trigger_price : Nat)
  | TakeProfit (trigger_price : Nat)
deriving DecidableEq

/-- Time-in-force options. -/
inductive TimeInForce where
  | GTC | IOC | FOK | PostOnly
deriving DecidableEq

/-- Order status. -/
inductive OrderStatus where
  | Pending | Open | PartiallyFilled | Filled | Cancelled | Expired | Rejected
deriving DecidableEq

/-- Individual order record (`Order`). -/
structure Order where
  id : Nat
  user : Nat
  side : OrderSide
  order_type : OrderType
  price : Nat
  quantity : Nat
  filled_quantity : Nat
  status : OrderStatus
  time_in_force : TimeInForce
  timestamp : Nat
  expires_at : Option Nat
deriving DecidableEq

/-- Market configuration (`MarketConfig`). -/
structure MarketConfig where
  base_asset : String
  quote_asset : String
  min_order_size : Nat
  max_order_size : Nat
  tick_size : Nat
  maker_fee_bps : Nat
  taker_fee_bps : Nat
  is_active : Bool
deriving DecidableEq

/-- The `Default` implementation of `MarketConfig`. -/
def MarketConfig.default : MarketConfig :=
  { base_asset := "BTC", quote_asset := "USDT"
    min_order_size := 1000, max_order_size := 100000000000
    tick_size := 1, maker_fee_bps := 10, taker_fee_bps := 20, is_active := true }

/-- Order book error type (`OrderBookError`); string payloads are dropped. -/
inductive OrderBookError where
  | OrderNotFound (order_id : Nat)
  | InsufficientBalance (required available : Nat)
  | InvalidOrder
  | OrderNotModifiable (status : OrderStatus)
  | Unauthorized
  | MarketClosed
  | BelowMinimumSize (size minimum : Nat)
  | AboveMaximumSize (size maximum : Nat)
  | InvalidTickSize
  | ViewError
deriving DecidableEq

/-- Order book state restricted to what order placement records. -/
structure OBState where
  config : MarketConfig
  next_order_id : Nat
  orders : AMap Nat Order
deriving DecidableEq

/-- Modelled from the spec: the body of `place_order` is missing from
`src/contracts/orderbook/src/lib.rs` — it is an explicit placeholder
("Implementation would go here - placeholder for brevity") and the file
notes the implementation methods are kept "in the original file".  The
PlaceOrder validation is therefore modelled from spec §4.2.3 step 1 and
§4.2.7: the caller must be authenticated; quantity must lie within
[min_order_size, max_order_size] (`BelowMinimumSize` / `AboveMaximumSize`);
the price must be a multiple of tick_size (`InvalidTickSize`); limit orders
require a positive price.  On success the order is recorded as `Open`;
matching and fund locking (spec steps 2-4) are beyond the claims treated
here and are not modelled. -/
def place_order (caller : Option Nat) (now : Nat) (side : OrderSide)
    (order_type : OrderType) (price quantity : Nat) (time_in_force : TimeInForce)
    (expires_at : Option Nat) (st : OBState) : Option OrderBookError × OBState :=
  match caller with
  | none => (some .Unauthorized, st)
  | some user =>
    if quantity < st.config.min_order_size then
      (some (.BelowMinimumSize quantity st.config.min_order_size), st)
    else if st.config.max_order_size < quantity then
      (some (.AboveMaximumSize quantity st.config.max_order_size), st)
    else if price % st.config.tick_size ≠ 0 then (some .InvalidTickSize, st)
    else if order_type = .Limit ∧ price = 0 then (some .InvalidOrder, st)
    else
      let order : Order :=
        { id := st.next_order_id, user := user, side := side, order_type := order_type
          price := price, quantity := quantity, filled_quantity := 0, status := .Open
          time_in_force := time_in_force, timestamp := now, expires_at := expires_at }
      (none,
        { st with
          orders := mset st.orders st.next_order_id order
          next_order_id := st.next_order_id + 1 })

end OrderBook

/-- A numeric association map is coherent when every physically present
entry is the one `mfind` returns for its key (true of every map built by
`mset`/`mdel` from the empty map). -/
def Coherent {K : Type} [DecidableEq K] (m : AMap K Nat) : Prop :=
  ∀ e ∈ m, mfind m e.1 = some e.2

instance {K : Type} [DecidableEq K] (m : AMap K Nat) : Decidable (Coherent m) := by
  unfold Coherent
  exact List.decidableBAll _ m

namespace Settlement

/-- Status of a stored settlement, if present. -/
def settlementStatusAt (st : SState) (settlement_id : Nat) : Option SettlementStatus :=
  (mfind st.settlements settlement_id).map (·.status)

/-- The escrow-ledger entries belonging to one settlement. -/
def escrowEntries (settlement_id : Nat) (st : SState) : AMap (Nat × Nat × String) Nat :=
  st.escrowed_balances.filter (fun e => decide (e.1.1 = settlement_id))

/-- Well-formedness of the escrow ledger relative to one settlement: every
ledger entry of that settlement sits at one of its two canonical keys, and
only while the corresponding party's `is_escrowed` flag is set.  This is
what `confirm_escrow` establishes and every handler maintains. -/
def EscrowOk (s : Settlement) (st : SState) : Prop :=
  ∀ e ∈ st.escrowed_balances, e.1.1 = s.id →
    (e.1 = (s.id, s.maker, s.maker_asset) ∧ s.maker_escrow.is_escrowed = true) ∨
    (e.1 = (s.id, s.taker, s.taker_asset) ∧ s.taker_escrow.is_escrowed = true)

instance (s : Settlement) (st : SState) : Decidable (EscrowOk s st) := by
  unfold EscrowOk
  exact List.decidableBAll _ _

end Settlement

section Fixtures

open Bridge Settlement OrderBook

/-- Chain 1 configured with a zero fee schedule and a single asset `T`. -/
def testChain : ChainConfig :=
  { chain := 1, is_enabled := true, supported_assets := ["T"]
    min_transfer_amount := 0, max_transfer_amount := 1000000
    base_fee := 0, fee_percentage_bps := 0, required_confirmations := 1 }

/-- Bridge with chain 1 configured. -/
def wdState0 : BState := (configure_chain testChain Bridge.initState).2

/-- User 1 funded by a confirmed 100 `T` deposit (transfer 1, completed). -/
def wdState1 : BState := (report_deposit 0 1 "h1" "s" 1 "T" 100 1 wdState0).2

/-- User 1 withdraws the 100 `T` (transfer 2, awaiting approval). -/
def wdState2 : BState := (initiate_withdrawal (some 1) 0 1 "d" "T" 100 wdState1).2

/-- The withdrawal is reported failed: transfer 2 `Failed`, user re-credited. -/
def wdFailed : BState := (complete_withdrawal 0 2 "x" false wdState2).2

/-- User 1 additionally claims a refund on the failed transfer. -/
def wdRefunded : BState := (claim_refund (some 1) 0 2 wdFailed).2

/-- The withdrawal is instead reported successful: transfer 2 `Completed`. -/
def wdCompleted : BState := (complete_withdrawal 5 2 "x" true wdState2).2

/-- Bridge with chain 1 and two validators: 10 (active, weight 1) and 11
(inactive, weight 100); the weight register totals 101. -/
def qState : BState :=
  (add_validator { address := 11, is_active := false, weight := 100, registered_at := 0 }
    (add_validator { address := 10, is_active := true, weight := 1, registered_at := 0 }
      wdState0).2).2

/-- Same bridge after a deposit funds user 1 (transfer 1). -/
def qFunded : BState := (report_deposit 0 1 "h7" "s" 1 "T" 100 1 qState).2

/-- User 1 opens withdrawal transfer 2, which awaits validator approval. -/
def qPending : BState := (initiate_withdrawal (some 1) 0 1 "d" "T" 50 qFunded).2

/-- The active validator 10 approves transfer 2. -/
def qApproved : BRes := approve_transfer (some 10) 7 2 [] qPending

/-- The pending withdrawal of `qPending`, as stored at transfer id 2. -/
def qTransfer : BridgeTransfer :=
  { id := 2, direction := .Outbound, source_chain := 0, destination_chain := some 1
    user := 1, external_address := "d", asset := "T", amount := 50, fee := 0
    net_amount := 50, source_tx_hash := none, destination_tx_hash := none
    status := .AwaitingApproval, confirmations := 0, required_confirmations := 0
    created_at := 0, completed_at := none, expires_at := dayMicros, approvals := []
    approval_threshold := 67, error_message := none, retry_count := 0 }

/-- Validator 10's registration record. -/
def qValidator : ValidatorConfig :=
  { address := 10, is_active := true, weight := 1, registered_at := 0 }

/-- Settlement 1: trade 7, maker 1 gives 10 `X`, taker 2 gives 20 `Y`,
expiring at time 1000. -/
def sState0 : SState :=
  (initiate_settlement 0 7 1 2 "X" "Y" 10 20 1000 Settlement.initState).2

/-- Both parties funded. -/
def sFunded : SState :=
  (Settlement.deposit (some 2) "Y" 20 (Settlement.deposit (some 1) "X" 10 sState0).2).2

/-- Maker 1 has escrowed; settlement 1 is `MakerEscrowed`. -/
def sMaker : SState := (confirm_escrow (some 1) 5 1 sFunded).2

/-- Taker 2 confirms as well; the settlement auto-executes to `Completed`. -/
def sDone : SState := (confirm_escrow (some 2) 6 1 sMaker).2

/-- Maker 1 cancels the half-escrowed settlement; their escrow is refunded. -/
def sCancelled : SRes := cancel_settlement (some 1) 1 "r" sMaker

/-- The pending settlement record stored in `sFunded` at id 1. -/
def wSettlement : Settlement.Settlement :=
  { id := 1, trade_id := 7, maker := 1, taker := 2, maker_asset := "X"
    taker_asset := "Y", maker_amount := 10, taker_amount := 20
    maker_escrow := EscrowState.default, taker_escrow := EscrowState.default
    status := .Pending, created_at := 0, expires_at := 1000, completed_at := none
    failure_reason := none, retry_count := 0 }

/-- The half-escrowed settlement record stored in `sMaker` at id 1. -/
def mSettlement : Settlement.Settlement :=
  { wSettlement with
    maker_escrow :=
      { is_escrowed := true, amount := 10, asset := "X", escrowed_at := some 5
        tx_hash := none }
    status := .MakerEscrowed }

/-- The completed settlement record stored in `sDone` at id 1 (the escrow
flags remain set; `execute_settlement` never resets them). -/
def dSettlement : Settlement.Settlement :=
  { wSettlement with
    maker_escrow :=
      { is_escrowed := true, amount := 10, asset := "X", escrowed_at := some 5
        tx_hash := none }
    taker_escrow :=
      { is_escrowed := true, amount := 20, asset := "Y", escrowed_at := some 6
        tx_hash := none }
    status := .Completed
    completed_at := some 6 }

/-- The settlement record stored after `sCancelled`: maker escrow flag still
set (cancellation does not reset it), status `Cancelled`. -/
def cSettlement : Settlement.Settlement :=
  { wSettlement with
    maker_escrow :=
      { is_escrowed := true, amount := 10, asset := "X", escrowed_at := some 5
        tx_hash := none }
    status := .Cancelled
    failure_reason := some "r" }

/-- A fully escrowed settlement fixture (this status is transient inside
`confirm_escrow`, so it is constructed directly). -/
def fSettlement : Settlement.Settlement :=
  { wSettlement with
    status := .FullyEscrowed
    maker_escrow :=
      { is_escrowed := true, amount := 10, asset := "X", escrowed_at := some 5
        tx_hash := none }
    taker_escrow :=
      { is_escrowed := true, amount := 20, asset := "Y", escrowed_at := some 6
        tx_hash := none } }

/-- Settlement state holding `fSettlement` and its two escrow entries. -/
def fState : SState :=
  { Settlement.initState with
    next_settlement_id := 2
    settlements := mset [] 1 fSettlement
    active_settlements := mset [] 1 ()
    expiration_queue := [(1000, 1)]
    escrowed_balances := mset (mset [] (1, 1, "X") 10) (1, 2, "Y") 20 }

/-- Empty order book over the default market configuration. -/
def obState : OBState :=
  { config := OrderBook.MarketConfig.default, next_order_id := 1, orders := [] }

end Fixtures

section Theorems

open Bridge Settlement OrderBook

theorem mget_mdel_ne {K : Type} [DecidableEq K] (m : AMap K Nat) (k k' : K)
    (h : k' ≠ k) : mget (mdel m k) k' = mget m k' := by
  simp [mget, mfind_mdel_ne m k k' h]

theorem mem_of_mem_mdel {K V : Type} [DecidableEq K] {m : AMap K V} {k : K}
    {e : K × V} (h : e ∈ mdel m k) : e ∈ m ∧ ¬ e.1 = k := by
  unfold mdel at h
  have := List.of_mem_filter h
  exact ⟨List.mem_of_mem_filter h, by simpa using this⟩

theorem mem_of_mem_mset {K V : Type} [DecidableEq K] {m : AMap K V} {k : K} {v : V}
    {e : K × V} (h : e ∈ mset m k v) : e = (k, v) ∨ (e ∈ m ∧ ¬ e.1 = k) := by
  unfold mset at h
  rcases List.mem_cons.mp h with h | h
  · exact Or.inl h
  · exact Or.inr (mem_of_mem_mdel h)

theorem coherent_mdel {K : Type} [DecidableEq K] {m : AMap K Nat} (k : K)
    (h : Coherent m) : Coherent (mdel m k) := by
  intro e he
  obtain ⟨hem, hek⟩ := mem_of_mem_mdel he
  rw [mfind_mdel_ne m k e.1 hek]
  exact h e hem

theorem msum_eq_zero {K : Type} {m : AMap K Nat} (h : ∀ e ∈ m, e.2 = 0) :
    msum m = 0 := by
  induction m with
  | nil => rfl
  | cons e t ih =>
    have h0 : e.2 = 0 := h e (List.mem_cons_self e t)
    have ht : msum t = 0 := ih fun x hx => h x (List.mem_cons_of_mem e hx)
    have hc : msum (e :: t) = e.2 + msum t := rfl
    rw [hc, h0, ht]

theorem process_refund_settlements (s : Settlement.Settlement) (st : SState) :
    (process_refund s st).settlements = st.settlements := by
  unfold Settlement.process_refund
  dsimp only
  split_ifs <;> rfl

theorem process_refund_escrow_subset (s : Settlement.Settlement) (st : SState)
    {e : (Nat × Nat × String) × Nat}
    (h : e ∈ (process_refund s st).escrowed_balances) : e ∈ st.escrowed_balances := by
  unfold Settlement.process_refund at h
  dsimp only at h
  split_ifs at h <;>
    first
      | exact h
      | exact (mem_of_mem_mdel h).1
      | exact (mem_of_mem_mdel (mem_of_mem_mdel h).1).1

theorem expireLoop_escrow_subset (now : Nat) (q : List (Nat × Nat)) (p : Nat)
    (st : SState) {e : (Nat × Nat × String) × Nat}
    (h : e ∈ (expireLoop now q p st).escrowed_balances) : e ∈ st.escrowed_balances := by
  induction q generalizing p st with
  | nil => simpa [expireLoop] using h
  | cons head rest ih =>
    obtain ⟨ea, sid'⟩ := head
    simp only [expireLoop] at h
    by_cases h10 : 10 ≤ p
    · rw [if_pos h10] at h; exact h
    · rw [if_neg h10] at h
      by_cases hnow : now < ea
      · rw [if_pos hnow] at h; exact h
      · rw [if_neg hnow] at h
        cases hmf : mfind st.settlements sid' with
        | none => rw [hmf] at h; dsimp only at h; exact ih p st h
        | some s' =>
          rw [hmf] at h
          dsimp only at h
          by_cases hcond : s'.status ≠ .Completed ∧ s'.status ≠ .Refunded ∧
              s'.status ≠ .Cancelled
          · rw [if_pos hcond] at h
            have h2 := ih _ _ h
            exact process_refund_escrow_subset s' st h2
          · rw [if_neg hcond] at h
            exact ih p st h

theorem coherent_val_zero {K : Type} [DecidableEq K] {m : AMap K Nat} {k : K}
    {e : K × Nat} (hco : Coherent m) (he : e ∈ m) (hk : e.1 = k) (h0 : mget m k = 0) :
    e.2 = 0 := by
  have hf := hco e he
  rw [hk] at hf
  rw [mget, hf] at h0
  simpa using h0

theorem escrowEntries_zero_of (sid : Nat) (st : SState)
    (h : ∀ e ∈ st.escrowed_balances, e.1.1 = sid → e.2 = 0) :
    msum (escrowEntries sid st) = 0 := by
  apply msum_eq_zero
  intro e he
  have h1 := List.of_mem_filter he
  have h2 := List.mem_of_mem_filter he
  exact h e h2 (by simpa using h1)

theorem process_refund_zeroes (s : Settlement.Settlement) (st : SState)
    (hok : EscrowOk s st) (hco : Coherent st.escrowed_balances) :
    ∀ e ∈ (process_refund s st).escrowed_balances, e.1.1 = s.id → e.2 = 0 := by
  intro e he he1
  unfold Settlement.process_refund at he
  dsimp only at he
  by_cases hfm : s.maker_escrow.is_escrowed <;>
    by_cases hft : s.taker_escrow.is_escrowed <;>
    simp only [hfm, hft, Bool.false_eq_true, if_true, if_false] at he
  · -- both parties flagged
    by_cases hp1 : 0 < mget st.escrowed_balances (s.id, s.maker, s.maker_asset)
    · rw [if_pos hp1] at he
      by_cases hp2 : 0 <
          mget (mdel st.escrowed_balances (s.id, s.maker, s.maker_asset))
            (s.id, s.taker, s.taker_asset)
      · rw [if_pos hp2] at he
        obtain ⟨he', hk2⟩ := mem_of_mem_mdel he
        obtain ⟨hest, hk1⟩ := mem_of_mem_mdel he'
        rcases hok e hest he1 with ⟨hk, _⟩ | ⟨hk, _⟩
        · exact absurd hk hk1
        · exact absurd hk hk2
      · rw [if_neg hp2] at he
        obtain ⟨hest, hk1⟩ := mem_of_mem_mdel he
        rcases hok e hest he1 with ⟨hk, _⟩ | ⟨hk, _⟩
        · exact absurd hk hk1
        · exact coherent_val_zero
            (coherent_mdel (s.id, s.maker, s.maker_asset) hco) he hk
            (Nat.eq_zero_of_not_pos hp2)
    · rw [if_neg hp1] at he
      by_cases hp2 : 0 < mget st.escrowed_balances (s.id, s.taker, s.taker_asset)
      · rw [if_pos hp2] at he
        obtain ⟨hest, hk2⟩ := mem_of_mem_mdel he
        rcases hok e hest he1 with ⟨hk, _⟩ | ⟨hk, _⟩
        · exact coherent_val_zero hco hest hk (Nat.eq_zero_of_not_pos hp1)
        · exact absurd hk hk2
      · rw [if_neg hp2] at he
        rcases hok e he he1 with ⟨hk, _⟩ | ⟨hk, _⟩
        · exact coherent_val_zero hco he hk (Nat.eq_zero_of_not_pos hp1)
        · exact coherent_val_zero hco he hk (Nat.eq_zero_of_not_pos hp2)
  · -- only the maker flagged
    by_cases hp1 : 0 < mget st.escrowed_balances (s.id, s.maker, s.maker_asset)
    · rw [if_pos hp1] at he
      obtain ⟨hest, hk1⟩ := mem_of_mem_mdel he
      rcases hok e hest he1 with ⟨hk, _⟩ | ⟨_, hflag⟩
      · exact absurd hk hk1
      · exact absurd hflag (by simpa using hft)
    · rw [if_neg hp1] at he
      rcases hok e he he1 with ⟨hk, _⟩ | ⟨_, hflag⟩
      · exact coherent_val_zero hco he hk (Nat.eq_zero_of_not_pos hp1)
      · exact absurd hflag (by simpa using hft)
  · -- only the taker flagged
    by_cases hp2 : 0 < mget st.escrowed_balances (s.id, s.taker, s.taker_asset)
    · rw [if_pos hp2] at he
      obtain ⟨hest, hk2⟩ := mem_of_mem_mdel he
      rcases hok e hest he1 with ⟨_, hflag⟩ | ⟨hk, _⟩
      · exact absurd hflag (by simpa using hfm)
      · exact absurd hk hk2
    · rw [if_neg hp2] at he
      rcases hok e he he1 with ⟨_, hflag⟩ | ⟨hk, _⟩
      · exact absurd hflag (by simpa using hfm)
      · exact coherent_val_zero hco he hk (Nat.eq_zero_of_not_pos hp2)
  · -- neither flagged
    rcases hok e he he1 with ⟨_, hflag⟩ | ⟨_, hflag⟩
    · exact absurd hflag (by simpa using hfm)
    · exact absurd hflag (by simpa using hft)

theorem expireLoop_preserves_finished (now : Nat) (q : List (Nat × Nat)) (p : Nat)
    (st : SState) (sid : Nat) (X : SettlementStatus)
    (hX : X = .Completed ∨ X = .Refunded ∨ X = .Cancelled)
    (h : settlementStatusAt st sid = some X) :
    settlementStatusAt (expireLoop now q p st) sid = some X := by
  induction q generalizing p st with
  | nil => simpa [expireLoop, settlementStatusAt] using h
  | cons head rest ih =>
    obtain ⟨ea, sid'⟩ := head
    simp only [expireLoop]
    by_cases h10 : 10 ≤ p
    · rw [if_pos h10]; simpa [settlementStatusAt] using h
    · rw [if_neg h10]
      by_cases hnow : now < ea
      · rw [if_pos hnow]; simpa [settlementStatusAt] using h
      · rw [if_neg hnow]
        cases hmf : mfind st.settlements sid' with
        | none => dsimp only; exact ih p st h
        | some s' =>
          dsimp only
          by_cases hcond : s'.status ≠ .Completed ∧ s'.status ≠ .Refunded ∧
              s'.status ≠ .Cancelled
          · rw [if_pos hcond]
            have hne : sid ≠ sid' := by
              intro hEq
              rw [hEq] at h
              rw [settlementStatusAt, hmf] at h
              have hsx : s'.status = X := by simpa using h
              rcases hX with hx | hx | hx <;> rw [hsx, hx] at hcond <;> simp at hcond
            apply ih
            rw [settlementStatusAt]
            have : mfind
                (mset (process_refund s' st).settlements sid'
                  { s' with status := .Expired }) sid =
                mfind (process_refund s' st).settlements sid :=
              mfind_mset_ne _ _ _ _ hne
            rw [this, process_refund_settlements]
            exact h
          · rw [if_neg hcond]
            exact ih p st h

theorem expireLoop_keeps_expired (now : Nat) (q : List (Nat × Nat)) (p : Nat)
    (st : SState) (sid : Nat)
    (h : settlementStatusAt st sid = some .Expired) :
    settlementStatusAt (expireLoop now q p st) sid = some .Expired := by
  induction q generalizing p st with
  | nil => simpa [expireLoop, settlementStatusAt] using h
  | cons head rest ih =>
    obtain ⟨ea, sid'⟩ := head
    simp only [expireLoop]
    by_cases h10 : 10 ≤ p
    · rw [if_pos h10]; simpa [settlementStatusAt] using h
    · rw [if_neg h10]
      by_cases hnow : now < ea
      · rw [if_pos hnow]; simpa [settlementStatusAt] using h
      · rw [if_neg hnow]
        cases hmf : mfind st.settlements sid' with
        | none => dsimp only; exact ih p st h
        | some s' =>
          dsimp only
          by_cases hcond : s'.status ≠ .Completed ∧ s'.status ≠ .Refunded ∧
              s'.status ≠ .Cancelled
          · rw [if_pos hcond]
            apply ih
            rw [settlementStatusAt]
            by_cases hne : sid = sid'
            · subst hne
              rw [mfind_mset_self]
              simp
            · rw [mfind_mset_ne _ _ _ _ hne, process_refund_settlements]
              exact h
          · rw [if_neg hcond]
            exact ih p st h

/-- C1: the bridge ledger does NOT conserve value.  Along the reachable
trace deposit-100 / withdraw-100 / failure-report / refund-claim, the
conservation equation (free + locked + fees + external withdrawals =
external deposits) holds up to and including the failed
`CompleteWithdrawal` — which already re-credits `net_amount` — and is then
broken by `ClaimRefund` on the same `Failed` transfer, which credits
`net_amount` a second time: the user ends up with 200 free `T` against 100
ever deposited. -/
theorem bridge_conservation_broken_by_claim_refund :
    conservation wdState1 ∧ conservation wdState2 ∧ conservation wdFailed ∧
    wdRefunded = (claim_refund (some 1) 0 2 wdFailed).2 ∧
    ¬ conservation wdRefunded ∧
    mget wdRefunded.balances (1, "T") = 200 ∧ depositsTotal wdRefunded = 100 :=
  ⟨by decide, by decide, by decide, rfl, by decide, by decide, by decide⟩

/-- C2: `CompleteWithdrawal` is NOT idempotent on failure reports.  On the
`Failed` transfer 2 of `wdFailed` (whose first failure report already
re-credited the 100 `T` net amount), a second
`CompleteWithdrawal(2, _, success := false)` succeeds, leaves the stored
transfer record unchanged, and credits the user's free balance with
`net_amount` again (100 → 200): the handler never checks the transfer's
status. -/
theorem complete_withdrawal_failure_not_idempotent :
    transferStatusAt wdFailed 2 = some .Failed ∧
    mget wdFailed.balances (1, "T") = 100 ∧
    (complete_withdrawal 0 2 "y" false wdFailed).1 = none ∧
    mfind (complete_withdrawal 0 2 "y" false wdFailed).2.transfers 2 =
      mfind wdFailed.transfers 2 ∧
    mget (complete_withdrawal 0 2 "y" false wdFailed).2.balances (1, "T") = 200 := by
  decide

/-- C3 counterexample: `ClaimRefund` on a `Completed` outbound transfer does
NOT always error.  Once `expires_at` has passed, the auto-expiry arm fires
even for a transfer that completed long before expiry: the call succeeds,
re-credits `net_amount` (the withdrawal was also paid out externally), and
rewrites the status to `Refunded`. -/
theorem claim_refund_refunds_completed_transfer_after_expiry :
    transferStatusAt wdCompleted 2 = some .Completed ∧
    mget wdCompleted.balances (1, "T") = 0 ∧
    (claim_refund (some 1) (dayMicros + 1) 2 wdCompleted).1 = none ∧
    mget (claim_refund (some 1) (dayMicros + 1) 2 wdCompleted).2.balances (1, "T") = 100 ∧
    transferStatusAt (claim_refund (some 1) (dayMicros + 1) 2 wdCompleted).2 2 =
      some .Refunded := by
  decide

/-- C4 counterexample: a settlement can sit in status `Expired` with a
nonzero escrow sum.  From the reachable `MakerEscrowed` state `sMaker`
(maker escrowed 10 `X`), the taker calls `ClaimRefund` after expiry: the
handler writes `Expired` into the settlements map before discovering the
caller has no escrow and erroring, leaving the maker's 10-unit ledger entry
in place.  `ExecuteSettlement` observing expiry behaves the same way on a
fully escrowed settlement, leaving both entries (sum 30). -/
theorem expired_settlement_with_nonzero_escrow :
    ((claim_refund (some 2) 2000 1 sMaker).1 = some (.InsufficientBalance 0 0) ∧
      settlementStatusAt (claim_refund (some 2) 2000 1 sMaker).2 1 = some .Expired ∧
      msum (escrowEntries 1 (claim_refund (some 2) 2000 1 sMaker).2) = 10) ∧
    ((execute_settlement 2000 1 fState).1 = some (.SettlementExpired 1000) ∧
      settlementStatusAt (execute_settlement 2000 1 fState).2 1 = some .Expired ∧
      msum (escrowEntries 1 (execute_settlement 2000 1 fState).2) = 30) := by
  decide

/-- C5 counterexample: `Completed` is NOT terminal.  On the reachable
completed settlement `sDone`, a participant's `ClaimRefund` after
`expires_at` succeeds and rewrites the status to `Expired` (no funds move,
as both escrow entries are already empty). -/
theorem completed_settlement_reexpired_by_claim_refund :
    settlementStatusAt sDone 1 = some .Completed ∧
    (claim_refund (some 1) 2000 1 sDone).1 = none ∧
    settlementStatusAt (claim_refund (some 1) 2000 1 sDone).2 1 = some .Expired := by
  decide

/-- C7 counterexample: the quorum rule does not use active-only weights.
With validator 10 (active, weight 1) and validator 11 (inactive, weight
100) registered, the active total weight is 1, so by the claim's formula an
approval of weight 1 ≥ 1 × 67 / 100 = 0 must move the transfer to
`Approved`; but the code compares against `total_validator_weight` = 101
(required 67), so after validator 10's approval the transfer is still
`AwaitingApproval`. -/
theorem quorum_counts_inactive_validator_weight :
    qApproved.1 = none ∧
    activeTotalWeight qApproved.2 = 1 ∧
    qApproved.2.approval_threshold_percentage = 67 ∧
    qApproved.2.total_validator_weight = 101 ∧
    activeTotalWeight qApproved.2 * qApproved.2.approval_threshold_percentage / 100 ≤
      ((mfind qApproved.2.transfers 2).map
        (fun t => activeApprovalWeight qApproved.2.validators t.approvals)).getD 0 ∧
    transferStatusAt qApproved.2 2 = some .AwaitingApproval := by
  decide

/-- C10 counterexample: after `CancelSettlement` has refunded the existing
escrows, a `ClaimRefund` by the party that had NOT escrowed does not
succeed: it fails with `InsufficientBalance` because neither of the
caller's escrow branches applies. -/
theorem claim_refund_after_cancel_fails_for_non_escrowed_party :
    sCancelled.1 = none ∧
    settlementStatusAt sCancelled.2 1 = some .Cancelled ∧
    (claim_refund (some 2) 50 1 sCancelled.2).1 = some (.InsufficientBalance 0 0) := by
  decide

/-- C9: `place_order` validation (modelled from spec §4.2.3 step 1, the
body being a placeholder in the source): a quantity below `min_order_size`
fails with `BelowMinimumSize` and leaves the state unchanged; a quantity
above `max_order_size` fails with `AboveMaximumSize`; an in-range quantity
with a price that is not a multiple of `tick_size` fails with
`InvalidTickSize`; in every case the state is returned untouched. -/
theorem place_order_validation (caller : Nat) (now : Nat) (side : OrderSide)
    (order_type : OrderType) (price quantity : Nat) (tif : TimeInForce)
    (expires_at : Option Nat) (st : OBState) :
    (quantity < st.config.min_order_size →
      place_order (some caller) now side order_type price quantity tif expires_at st =
        (some (.BelowMinimumSize quantity st.config.min_order_size), st)) ∧
    (st.config.min_order_size ≤ quantity → st.config.max_order_size < quantity →
      place_order (some caller) now side order_type price quantity tif expires_at st =
        (some (.AboveMaximumSize quantity st.config.max_order_size), st)) ∧
    (st.config.min_order_size ≤ quantity → quantity ≤ st.config.max_order_size →
      price % st.config.tick_size ≠ 0 →
      place_order (some caller) now side order_type price quantity tif expires_at st =
        (some .InvalidTickSize, st)) := by
  refine ⟨fun h1 => ?_, fun h1 h2 => ?_, fun h1 h2 h3 => ?_⟩
  · simp [place_order, h1]
  · simp [place_order, Nat.not_lt.mpr h1, h2]
  · simp [place_order, Nat.not_lt.mpr h1, Nat.not_lt.mpr h2, h3]

/-- C9 witness: the three validation failures at concrete inputs on the
default market (min 1000, max 100000000000, tick 1). -/
theorem place_order_validation_witness :
    (place_order (some 1) 0 .Buy .Limit 100 5 .GTC none obState =
      (some (.BelowMinimumSize 5 1000), obState)) ∧
    (place_order (some 1) 0 .Buy .Limit 100 200000000000 .GTC none
        { obState with config := { obState.config with tick_size := 10 } } =
      (some (.AboveMaximumSize 200000000000 100000000000),
        { obState with config := { obState.config with tick_size := 10 } })) ∧
    (place_order (some 1) 0 .Buy .Limit 105 2000 .GTC none
        { obState with config := { obState.config with tick_size := 10 } } =
      (some .InvalidTickSize,
        { obState with config := { obState.config with tick_size := 10 } })) := by
  refine ⟨?_, ?_, ?_⟩
  · exact (place_order_validation 1 0 .Buy .Limit 100 5 .GTC none obState).1 (by decide)
  · exact (place_order_validation 1 0 .Buy .Limit 100 200000000000 .GTC none
      { obState with config := { obState.config with tick_size := 10 } }).2.1
      (by decide) (by decide)
  · exact (place_order_validation 1 0 .Buy .Limit 105 2000 .GTC none
      { obState with config := { obState.config with tick_size := 10 } }).2.2
      (by decide) (by decide) (by decide)

/-- C3 amended: for every bridge transfer whose status is `Completed` and
whose `expires_at` has NOT yet passed, `ClaimRefund` returns an error and
changes nothing, whoever the caller is; once `expires_at` passes, the
auto-expiry arm makes the transfer refundable (see the counterexample). -/
theorem claim_refund_completed_unexpired_errors (caller : Option Nat)
    (now transfer_id : Nat) (st : BState)
    (h1 : transferStatusAt st transfer_id = some .Completed)
    (h2 : now ≤ transferExpiryAt st transfer_id) :
    (claim_refund caller now transfer_id st).1.isSome ∧
    (claim_refund caller now transfer_id st).2 = st := by
  cases hmf : mfind st.transfers transfer_id with
  | none => simp [transferStatusAt, hmf] at h1
  | some t =>
    have hs : t.status = .Completed := by
      simpa [transferStatusAt, hmf] using h1
    have he : ¬ t.expires_at < now := by
      have : now ≤ t.expires_at := by simpa [transferExpiryAt, hmf] using h2
      exact Nat.not_lt.mpr this
    cases caller with
    | none => simp [Bridge.claim_refund]
    | some who =>
      by_cases hu : t.user ≠ who
      · simp [Bridge.claim_refund, hmf, hu]
      · simp [Bridge.claim_refund, hmf, hu, hs, he]

/-- C3 witness: on `wdCompleted` (transfer 2 just completed, well before
expiry), a refund claim at time 6 errors and leaves the state unchanged. -/
theorem claim_refund_completed_unexpired_errors_witness :
    (claim_refund (some 1) 6 2 wdCompleted).1.isSome ∧
    (claim_refund (some 1) 6 2 wdCompleted).2 = wdCompleted :=
  claim_refund_completed_unexpired_errors (some 1) 6 2 wdCompleted
    (by decide) (by decide)

/-- C10 amended: once `CancelSettlement` has removed a settlement's escrow
ledger entries, a subsequent `ClaimRefund` never credits anything: the
balances map is returned untouched, and the call returns `Ok` exactly when
the caller's `is_escrowed` flag was still set from before the cancellation
(otherwise it fails with `InsufficientBalance`). -/
theorem claim_refund_after_cancel_credits_nothing (who now settlement_id : Nat)
    (st : SState) (s : Settlement.Settlement)
    (hf : mfind st.settlements settlement_id = some s)
    (hs : s.status = .Cancelled)
    (hmt : s.maker ≠ s.taker)
    (hk1 : mfind st.escrowed_balances (settlement_id, s.maker, s.maker_asset) = none)
    (hk2 : mfind st.escrowed_balances (settlement_id, s.taker, s.taker_asset) = none)
    (hwho : who = s.maker ∨ who = s.taker) :
    (Settlement.claim_refund (some who) now settlement_id st).2.balances = st.balances ∧
    ((Settlement.claim_refund (some who) now settlement_id st).1 = none ↔
      (who = s.maker ∧ s.maker_escrow.is_escrowed = true) ∨
      (who = s.taker ∧ s.taker_escrow.is_escrowed = true)) := by
  have hget1 : mget st.escrowed_balances (settlement_id, s.maker, s.maker_asset) = 0 := by
    simp [mget, hk1]
  have hget2 : mget st.escrowed_balances (settlement_id, s.taker, s.taker_asset) = 0 := by
    simp [mget, hk2]
  rcases hwho with hw | hw
  · subst hw
    by_cases hfm : s.maker_escrow.is_escrowed
    · simp [Settlement.claim_refund, Settlement.claim_refund.refundCaller, hf, hs, hmt,
        hfm, hget1]
    · simp [Settlement.claim_refund, hf, hs, hmt, hfm]
  · subst hw
    have hmt' : s.taker ≠ s.maker := fun h => hmt h.symm
    by_cases hft : s.taker_escrow.is_escrowed
    · simp [Settlement.claim_refund, Settlement.claim_refund.refundCaller, hf, hs, hmt', hft,
        hget2]
    · simp [Settlement.claim_refund, hf, hs, hmt', hft]

/-- C10 witness: on the cancelled settlement of `sCancelled`, the maker
(who had escrowed) gets `Ok` and no credit. -/
theorem claim_refund_after_cancel_credits_nothing_witness :
    (Settlement.claim_refund (some 1) 50 1 sCancelled.2).2.balances =
      sCancelled.2.balances ∧
    ((Settlement.claim_refund (some 1) 50 1 sCancelled.2).1 = none ↔
      (1 = cSettlement.maker ∧ cSettlement.maker_escrow.is_escrowed = true) ∨
      (1 = cSettlement.taker ∧ cSettlement.taker_escrow.is_escrowed = true)) :=
  claim_refund_after_cancel_credits_nothing 1 50 1 sCancelled.2 cSettlement
    (by decide) (by decide) (by decide) (by decide) (by decide) (by decide)

/-- C7 amended: `ApproveTransfer` by an active registered validator on an
`AwaitingApproval` transfer succeeds and moves it to `Approved` exactly
when the summed weight of the recorded approvals — each validator's weight
looked up in the current registry whether active or not — reaches
`total_validator_weight` (the register summing ALL registered validators'
weights) times the threshold percentage divided by 100. -/
theorem approve_transfer_approves_iff_registry_weight (now transfer_id : Nat)
    (sig : List Nat) (st : BState) (v : Nat) (vc : ValidatorConfig) (t : BridgeTransfer)
    (hv : mfind st.validators v = some vc) (hact : vc.is_active = true)
    (hf : mfind st.transfers transfer_id = some t) (hst : t.status = .AwaitingApproval)
    (hdup : ∀ a ∈ t.approvals, a.validator ≠ v) :
    (approve_transfer (some v) now transfer_id sig st).1 = none ∧
    transferStatusAt (approve_transfer (some v) now transfer_id sig st).2 transfer_id =
      some (if st.total_validator_weight * st.approval_threshold_percentage / 100 ≤
              approvalWeight st.validators
                (t.approvals ++
                  [{ validator := v, approved := true, signature := sig, timestamp := now }])
            then .Approved else .AwaitingApproval) := by
  have hany : t.approvals.any (fun a => decide (a.validator = v)) = false := by
    rw [List.any_eq_false]
    intro a ha
    simpa using hdup a ha
  by_cases hw : st.total_validator_weight * st.approval_threshold_percentage / 100 ≤
      approvalWeight st.validators
        (t.approvals ++
          [{ validator := v, approved := true, signature := sig, timestamp := now }])
  · simp [approve_transfer, hv, hact, hf, hst, hany, hw, transferStatusAt,
      mfind_mset_self]
  · simp [approve_transfer, hv, hact, hf, hst, hany, hw, transferStatusAt,
      mfind_mset_self]

/-- C7 witness: validator 10 approving transfer 2 of `qPending`; the
registry-weight quorum (101 × 67 / 100 = 67) is not reached by the weight-1
approval, so the transfer stays `AwaitingApproval`. -/
theorem approve_transfer_approves_iff_registry_weight_witness :
    (approve_transfer (some 10) 7 2 [] qPending).1 = none ∧
    transferStatusAt (approve_transfer (some 10) 7 2 [] qPending).2 2 =
      some (if qPending.total_validator_weight * qPending.approval_threshold_percentage / 100 ≤
              approvalWeight qPending.validators
                (qTransfer.approvals ++
                  [{ validator := 10, approved := true, signature := [], timestamp := 7 }])
            then .Approved else .AwaitingApproval) :=
  approve_transfer_approves_iff_registry_weight 7 2 [] qPending 10 qValidator qTransfer
    (by decide) (by decide) (by decide) (by decide) (by decide)

theorem execute_clears_escrow (now sid : Nat) (st : SState) (s : Settlement.Settlement)
    (hf : mfind st.settlements sid = some s) (hs : s.status = .FullyEscrowed)
    (hexp : now ≤ s.expires_at)
    (hcanon : ∀ e ∈ st.escrowed_balances, e.1.1 = sid →
      e.1 = (sid, s.maker, s.maker_asset) ∨ e.1 = (sid, s.taker, s.taker_asset)) :
    (execute_settlement now sid st).1 = none ∧
    settlementStatusAt (execute_settlement now sid st).2 sid = some .Completed ∧
    msum (escrowEntries sid (execute_settlement now sid st).2) = 0 := by
  have hnl : ¬ s.expires_at < now := Nat.not_lt.mpr hexp
  have hesc : (execute_settlement now sid st).2.escrowed_balances =
      mdel (mdel st.escrowed_balances (sid, s.maker, s.maker_asset))
        (sid, s.taker, s.taker_asset) := by
    simp [execute_settlement, hf, hs, hnl]
  refine ⟨by simp [execute_settlement, hf, hs, hnl], ?_, ?_⟩
  · simp [execute_settlement, hf, hs, hnl, settlementStatusAt, mfind_mset_self]
  · apply escrowEntries_zero_of
    rw [hesc]
    intro e he he1
    obtain ⟨he', hk2⟩ := mem_of_mem_mdel he
    obtain ⟨hest, hk1⟩ := mem_of_mem_mdel he'
    rcases hcanon e hest he1 with hk | hk
    · exact absurd hk hk1
    · exact absurd hk hk2

theorem cancel_clears_escrow (who sid : Nat) (reason : String) (st : SState)
    (s : Settlement.Settlement)
    (hf : mfind st.settlements sid = some s) (hid : s.id = sid)
    (hs3 : s.status = .Pending ∨ s.status = .MakerEscrowed ∨ s.status = .TakerEscrowed)
    (hw : who = s.maker ∨ who = s.taker)
    (hok : EscrowOk s st) (hco : Coherent st.escrowed_balances) :
    (cancel_settlement (some who) sid reason st).1 = none ∧
    settlementStatusAt (cancel_settlement (some who) sid reason st).2 sid =
      some .Cancelled ∧
    msum (escrowEntries sid (cancel_settlement (some who) sid reason st).2) = 0 := by
  have hwn : ¬ (who ≠ s.maker ∧ who ≠ s.taker) := by
    rcases hw with h | h <;> simp [h]
  have hesc : (cancel_settlement (some who) sid reason st).2.escrowed_balances =
      (process_refund s st).escrowed_balances := by
    rcases hs3 with h | h | h <;> simp [cancel_settlement, hf, hwn, h]
  refine ⟨?_, ?_, ?_⟩
  · rcases hs3 with h | h | h <;> simp [cancel_settlement, hf, hwn, h]
  · rcases hs3 with h | h | h <;>
      simp [cancel_settlement, hf, hwn, h, settlementStatusAt, mfind_mset_self]
  · apply escrowEntries_zero_of
    rw [hesc]
    intro e he he1
    exact process_refund_zeroes s st hok hco e he (by rw [hid]; exact he1)

theorem claim_refund_refunded_clears (who now sid : Nat) (st : SState)
    (s : Settlement.Settlement)
    (hf : mfind st.settlements sid = some s) (hid : s.id = sid)
    (hmt : s.maker ≠ s.taker)
    (hcr : s.status = .Expired ∨ s.status = .Failed ∨ s.status = .Cancelled ∨
      ((s.status ≠ .Expired ∧ s.status ≠ .Failed ∧ s.status ≠ .Cancelled) ∧
        s.expires_at < now))
    (hok : EscrowOk s st) (hco : Coherent st.escrowed_balances)
    (hcase :
      (who = s.maker ∧ s.maker_escrow.is_escrowed = true ∧
        s.taker_escrow.is_escrowed = false ∧
        0 < mget st.escrowed_balances (sid, s.maker, s.maker_asset)) ∨
      (who = s.taker ∧ s.taker_escrow.is_escrowed = true ∧
        s.maker_escrow.is_escrowed = false ∧
        0 < mget st.escrowed_balances (sid, s.taker, s.taker_asset))) :
    (Settlement.claim_refund (some who) now sid st).1 = none ∧
    settlementStatusAt (Settlement.claim_refund (some who) now sid st).2 sid =
      some .Refunded ∧
    msum (escrowEntries sid (Settlement.claim_refund (some who) now sid st).2) = 0 := by
  have h4' : ¬ (s.status = .Expired ∨ s.status = .Failed ∨ s.status = .Cancelled) →
      s.expires_at < now := by
    intro hterm
    rcases hcr with h | h | h | ⟨_, h4⟩
    · exact absurd (Or.inl h) hterm
    · exact absurd (Or.inr (Or.inl h)) hterm
    · exact absurd (Or.inr (Or.inr h)) hterm
    · exact h4
  have hmt' : ¬ s.taker = s.maker := fun h => hmt h.symm
  rcases hcase with ⟨hwm, hm1, ht0, hpos⟩ | ⟨hwt, ht1, hm0, hpos⟩
  · have main : (Settlement.claim_refund (some who) now sid st).1 = none ∧
        settlementStatusAt (Settlement.claim_refund (some who) now sid st).2 sid =
          some .Refunded ∧
        (Settlement.claim_refund (some who) now sid st).2.escrowed_balances =
          mdel st.escrowed_balances (sid, s.maker, s.maker_asset) := by
      by_cases hterm : s.status = .Expired ∨ s.status = .Failed ∨ s.status = .Cancelled
      · refine ⟨?_, ?_, ?_⟩ <;>
          simp [Settlement.claim_refund, Settlement.claim_refund.refundCaller, hf,
            hwm, hm1, ht0, hpos, settlementStatusAt, mfind_mset_self, hterm]
      · refine ⟨?_, ?_, ?_⟩ <;>
          simp [Settlement.claim_refund, Settlement.claim_refund.refundCaller, hf,
            hwm, hm1, ht0, hpos, settlementStatusAt, mfind_mset_self, hterm,
            h4' hterm]
    refine ⟨main.1, main.2.1, ?_⟩
    apply escrowEntries_zero_of
    rw [main.2.2]
    intro e he he1
    obtain ⟨hest, hk1⟩ := mem_of_mem_mdel he
    rcases hok e hest (by rw [hid]; exact he1) with ⟨hk, _⟩ | ⟨_, hflag⟩
    · rw [hid] at hk; exact absurd hk hk1
    · rw [ht0] at hflag; exact absurd hflag (by simp)
  · have main : (Settlement.claim_refund (some who) now sid st).1 = none ∧
        settlementStatusAt (Settlement.claim_refund (some who) now sid st).2 sid =
          some .Refunded ∧
        (Settlement.claim_refund (some who) now sid st).2.escrowed_balances =
          mdel st.escrowed_balances (sid, s.taker, s.taker_asset) := by
      by_cases hterm : s.status = .Expired ∨ s.status = .Failed ∨ s.status = .Cancelled
      · refine ⟨?_, ?_, ?_⟩ <;>
          simp [Settlement.claim_refund, Settlement.claim_refund.refundCaller, hf,
            hwt, ht1, hm0, hmt', hpos, settlementStatusAt, mfind_mset_self, hterm]
      · refine ⟨?_, ?_, ?_⟩ <;>
          simp [Settlement.claim_refund, Settlement.claim_refund.refundCaller, hf,
            hwt, ht1, hm0, hmt', hpos, settlementStatusAt, mfind_mset_self, hterm,
            h4' hterm]
    refine ⟨main.1, main.2.1, ?_⟩
    apply escrowEntries_zero_of
    rw [main.2.2]
    intro e he he1
    obtain ⟨hest, hk2⟩ := mem_of_mem_mdel he
    rcases hok e hest (by rw [hid]; exact he1) with ⟨_, hflag⟩ | ⟨hk, _⟩
    · rw [hm0] at hflag; exact absurd hflag (by simp)
    · rw [hid] at hk; exact absurd hk hk2

theorem pes_expires_head_clears (now ea sid : Nat) (rest : List (Nat × Nat))
    (st : SState) (s : Settlement.Settlement)
    (hq : st.expiration_queue = (ea, sid) :: rest) (hnow : ea ≤ now)
    (hf : mfind st.settlements sid = some s) (hid : s.id = sid)
    (hstat : s.status ≠ .Completed ∧ s.status ≠ .Refunded ∧ s.status ≠ .Cancelled)
    (hok : EscrowOk s st) (hco : Coherent st.escrowed_balances) :
    settlementStatusAt (process_expired_settlements now st).2 sid = some .Expired ∧
    msum (escrowEntries sid (process_expired_settlements now st).2) = 0 := by
  constructor
  · rw [process_expired_settlements]
    dsimp only
    rw [hq]
    simp only [expireLoop]
    rw [if_neg (by decide : ¬ (10 : Nat) ≤ 0), if_neg (Nat.not_lt.mpr hnow), hf]
    dsimp only
    rw [if_pos hstat]
    apply expireLoop_keeps_expired
    simp [settlementStatusAt, mfind_mset_self]
  · apply escrowEntries_zero_of
    intro e he he1
    rw [process_expired_settlements] at he
    dsimp only at he
    rw [hq] at he
    simp only [expireLoop] at he
    rw [if_neg (by decide : ¬ (10 : Nat) ≤ 0), if_neg (Nat.not_lt.mpr hnow), hf] at he
    dsimp only at he
    rw [if_pos hstat] at he
    have hsub := expireLoop_escrow_subset now rest 1 _ he
    exact process_refund_zeroes s st hok hco e hsub (by rw [hid]; exact he1)

/-- C5 amended: a `Completed` settlement's status is never changed by
`ConfirmEscrow`, `ExecuteSettlement`, `CancelSettlement` or
`ProcessExpiredSettlements` (at any time), nor by `ClaimRefund` while
`now ≤ expires_at`; after expiry a participant's `ClaimRefund` re-marks it
`Expired` (see the counterexample). -/
theorem completed_settlement_terminal_cases (st : SState) (s : Settlement.Settlement)
    (sid : Nat) (hf : mfind st.settlements sid = some s) (hs : s.status = .Completed)
    (hm : s.maker_escrow.is_escrowed = true) (ht : s.taker_escrow.is_escrowed = true) :
    (∀ caller now, (confirm_escrow caller now sid st).1.isSome ∧
      (confirm_escrow caller now sid st).2 = st) ∧
    (∀ now, (execute_settlement now sid st).1.isSome ∧
      (execute_settlement now sid st).2 = st) ∧
    (∀ caller reason, (cancel_settlement caller sid reason st).1.isSome ∧
      (cancel_settlement caller sid reason st).2 = st) ∧
    (∀ caller now, now ≤ s.expires_at →
      (Settlement.claim_refund caller now sid st).1.isSome ∧
      (Settlement.claim_refund caller now sid st).2 = st) ∧
    (∀ now, settlementStatusAt (process_expired_settlements now st).2 sid =
      some .Completed) := by
  refine ⟨?_, ?_, ?_, ?_, ?_⟩
  · intro caller now
    cases caller with
    | none => simp [confirm_escrow]
    | some who =>
      by_cases hwm : who = s.maker
      all_goals by_cases hwt : who = s.taker
      all_goals by_cases hexp2 : s.expires_at < now
      all_goals simp [confirm_escrow, hf, hwm, hwt, hexp2, hm, ht]
  · intro now
    simp [execute_settlement, hf, hs]
  · intro caller reason
    cases caller with
    | none => simp [cancel_settlement]
    | some who =>
      by_cases hw : who ≠ s.maker ∧ who ≠ s.taker
      · simp [cancel_settlement, hf, hw]
      · simp [cancel_settlement, hf, hw, hs]
  · intro caller now hne
    have hnl : ¬ s.expires_at < now := Nat.not_lt.mpr hne
    cases caller with
    | none => simp [Settlement.claim_refund]
    | some who =>
      by_cases hw : who ≠ s.maker ∧ who ≠ s.taker
      · simp [Settlement.claim_refund, hf, hw]
      · simp [Settlement.claim_refund, hf, hw, hs, hnl]
  · intro now
    have h0 : settlementStatusAt st sid = some .Completed := by
      simp [settlementStatusAt, hf, hs]
    exact expireLoop_preserves_finished now st.expiration_queue 0 st sid .Completed
      (Or.inl rfl) h0

/-- C5 witness: the completed settlement of `sDone` is left `Completed` by
each handler at concrete arguments (refund claimed at time 500, before the
expiry at 1000). -/
theorem completed_settlement_terminal_cases_witness :
    ((confirm_escrow (some 3) 7 1 sDone).1.isSome ∧
      (confirm_escrow (some 3) 7 1 sDone).2 = sDone) ∧
    ((execute_settlement 7 1 sDone).1.isSome ∧
      (execute_settlement 7 1 sDone).2 = sDone) ∧
    ((cancel_settlement (some 1) 1 "z" sDone).1.isSome ∧
      (cancel_settlement (some 1) 1 "z" sDone).2 = sDone) ∧
    ((Settlement.claim_refund (some 1) 500 1 sDone).1.isSome ∧
      (Settlement.claim_refund (some 1) 500 1 sDone).2 = sDone) ∧
    settlementStatusAt (process_expired_settlements 7 sDone).2 1 = some .Completed := by
  have h := completed_settlement_terminal_cases sDone dSettlement 1
    (by decide) (by decide) (by decide) (by decide)
  exact ⟨h.1 (some 3) 7, h.2.1 7, h.2.2.1 (some 1) "z",
    h.2.2.2.1 (some 1) 500 (by decide), h.2.2.2.2 7⟩

/-- C4 amended: each operation that finalizes a settlement as `Completed`,
`Cancelled` or `Refunded` leaves that settlement's escrow-ledger sum at
zero, and `ProcessExpiredSettlements` does the same for each settlement it
moves to `Expired` — under the ledger well-formedness that `confirm_escrow`
establishes (entries only at the settlement's canonical keys of escrowed
parties, coherent map).  The auto-expiry paths of `ClaimRefund` and
`ExecuteSettlement`, by contrast, can mark a settlement `Expired` with a
nonzero escrow sum (see the counterexample). -/
theorem settlement_finalizers_clear_escrow :
    (∀ now sid st (s : Settlement.Settlement), mfind st.settlements sid = some s →
      s.status = .FullyEscrowed → now ≤ s.expires_at →
      (∀ e ∈ st.escrowed_balances, e.1.1 = sid →
        e.1 = (sid, s.maker, s.maker_asset) ∨ e.1 = (sid, s.taker, s.taker_asset)) →
      (execute_settlement now sid st).1 = none ∧
      settlementStatusAt (execute_settlement now sid st).2 sid = some .Completed ∧
      msum (escrowEntries sid (execute_settlement now sid st).2) = 0) ∧
    (∀ who sid reason st (s : Settlement.Settlement),
      mfind st.settlements sid = some s → s.id = sid →
      (s.status = .Pending ∨ s.status = .MakerEscrowed ∨ s.status = .TakerEscrowed) →
      (who = s.maker ∨ who = s.taker) → EscrowOk s st →
      Coherent st.escrowed_balances →
      (cancel_settlement (some who) sid reason st).1 = none ∧
      settlementStatusAt (cancel_settlement (some who) sid reason st).2 sid =
        some .Cancelled ∧
      msum (escrowEntries sid (cancel_settlement (some who) sid reason st).2) = 0) ∧
    (∀ who now sid st (s : Settlement.Settlement),
      mfind st.settlements sid = some s → s.id = sid → s.maker ≠ s.taker →
      (s.status = .Expired ∨ s.status = .Failed ∨ s.status = .Cancelled ∨
        ((s.status ≠ .Expired ∧ s.status ≠ .Failed ∧ s.status ≠ .Cancelled) ∧
          s.expires_at < now)) →
      EscrowOk s st → Coherent st.escrowed_balances →
      ((who = s.maker ∧ s.maker_escrow.is_escrowed = true ∧
        s.taker_escrow.is_escrowed = false ∧
        0 < mget st.escrowed_balances (sid, s.maker, s.maker_asset)) ∨
       (who = s.taker ∧ s.taker_escrow.is_escrowed = true ∧
        s.maker_escrow.is_escrowed = false ∧
        0 < mget st.escrowed_balances (sid, s.taker, s.taker_asset))) →
      (Settlement.claim_refund (some who) now sid st).1 = none ∧
      settlementStatusAt (Settlement.claim_refund (some who) now sid st).2 sid =
        some .Refunded ∧
      msum (escrowEntries sid (Settlement.claim_refund (some who) now sid st).2) = 0) ∧
    (∀ now ea sid rest st (s : Settlement.Settlement),
      st.expiration_queue = (ea, sid) :: rest → ea ≤ now →
      mfind st.settlements sid = some s → s.id = sid →
      (s.status ≠ .Completed ∧ s.status ≠ .Refunded ∧ s.status ≠ .Cancelled) →
      EscrowOk s st → Coherent st.escrowed_balances →
      settlementStatusAt (process_expired_settlements now st).2 sid = some .Expired ∧
      msum (escrowEntries sid (process_expired_settlements now st).2) = 0) :=
  ⟨fun now sid st s h1 h2 h3 h4 => execute_clears_escrow now sid st s h1 h2 h3 h4,
   fun who sid reason st s h1 h2 h3 h4 h5 h6 =>
     cancel_clears_escrow who sid reason st s h1 h2 h3 h4 h5 h6,
   fun who now sid st s h1 h2 h3 h4 h5 h6 h7 =>
     claim_refund_refunded_clears who now sid st s h1 h2 h3 h4 h5 h6 h7,
   fun now ea sid rest st s h1 h2 h3 h4 h5 h6 h7 =>
     pes_expires_head_clears now ea sid rest st s h1 h2 h3 h4 h5 h6 h7⟩

/-- C4 witness: the four finalizers applied at concrete fixture states —
executing `fState` (fully escrowed), cancelling `sMaker`, claiming the
refund of the expired `sMaker` as the maker, and processing `sMaker`'s
expiration queue. -/
theorem settlement_finalizers_clear_escrow_witness :
    ((execute_settlement 500 1 fState).1 = none ∧
      settlementStatusAt (execute_settlement 500 1 fState).2 1 = some .Completed ∧
      msum (escrowEntries 1 (execute_settlement 500 1 fState).2) = 0) ∧
    ((cancel_settlement (some 1) 1 "r" sMaker).1 = none ∧
      settlementStatusAt (cancel_settlement (some 1) 1 "r" sMaker).2 1 =
        some .Cancelled ∧
      msum (escrowEntries 1 (cancel_settlement (some 1) 1 "r" sMaker).2) = 0) ∧
    ((Settlement.claim_refund (some 1) 2000 1 sMaker).1 = none ∧
      settlementStatusAt (Settlement.claim_refund (some 1) 2000 1 sMaker).2 1 =
        some .Refunded ∧
      msum (escrowEntries 1 (Settlement.claim_refund (some 1) 2000 1 sMaker).2) = 0) ∧
    (settlementStatusAt (process_expired_settlements 2000 sMaker).2 1 =
        some .Expired ∧
      msum (escrowEntries 1 (process_expired_settlements 2000 sMaker).2) = 0) :=
  ⟨settlement_finalizers_clear_escrow.1 500 1 fState fSettlement
      (by decide) (by decide) (by decide) (by decide),
   settlement_finalizers_clear_escrow.2.1 1 1 "r" sMaker mSettlement
      (by decide) (by decide) (by decide) (by decide) (by decide) (by decide),
   settlement_finalizers_clear_escrow.2.2.1 1 2000 1 sMaker mSettlement
      (by decide) (by decide) (by decide) (by decide) (by decide) (by decide)
      (by decide),
   settlement_finalizers_clear_escrow.2.2.2 2000 1000 1 [] sMaker mSettlement
      (by decide) (by decide) (by decide) (by decide) (by decide) (by decide)
      (by decide)⟩

/-- C6: settlement happy path.  For every stored settlement between
distinct parties swapping distinct assets, not yet escrowed on either side
and not expired at either call, where maker and taker each hold sufficient
free balance: after the maker's and then the taker's `ConfirmEscrow`, both
calls succeed, the settlement is `Completed` with `completed_at` set to the
second call's time, the taker's free balance in the maker's asset has grown
by `maker_amount`, the maker's free balance in the taker's asset has grown
by `taker_amount`, and both escrow-ledger entries are cleared — all within
the second `ConfirmEscrow` operation. -/
theorem settlement_happy_path (st : SState) (s : Settlement.Settlement)
    (sid now1 now2 : Nat)
    (hf : mfind st.settlements sid = some s)
    (hm : s.maker_escrow.is_escrowed = false) (ht : s.taker_escrow.is_escrowed = false)
    (hmt : s.maker ≠ s.taker) (has : s.maker_asset ≠ s.taker_asset)
    (he1 : now1 ≤ s.expires_at) (he2 : now2 ≤ s.expires_at)
    (hb1 : s.maker_amount ≤ mget st.balances (s.maker, s.maker_asset))
    (hb2 : s.taker_amount ≤ mget st.balances (s.taker, s.taker_asset)) :
    (confirm_escrow (some s.maker) now1 sid st).1 = none ∧
    (confirm_escrow (some s.taker) now2 sid
      (confirm_escrow (some s.maker) now1 sid st).2).1 = none ∧
    settlementStatusAt
      (confirm_escrow (some s.taker) now2 sid
        (confirm_escrow (some s.maker) now1 sid st).2).2 sid = some .Completed ∧
    (mfind (confirm_escrow (some s.taker) now2 sid
        (confirm_escrow (some s.maker) now1 sid st).2).2.settlements sid).map
      (·.completed_at) = some (some now2) ∧
    mget (confirm_escrow (some s.taker) now2 sid
        (confirm_escrow (some s.maker) now1 sid st).2).2.balances
      (s.taker, s.maker_asset) =
      mget st.balances (s.taker, s.maker_asset) + s.maker_amount ∧
    mget (confirm_escrow (some s.taker) now2 sid
        (confirm_escrow (some s.maker) now1 sid st).2).2.balances
      (s.maker, s.taker_asset) =
      mget st.balances (s.maker, s.taker_asset) + s.taker_amount ∧
    mfind (confirm_escrow (some s.taker) now2 sid
        (confirm_escrow (some s.maker) now1 sid st).2).2.escrowed_balances
      (sid, s.maker, s.maker_asset) = none ∧
    mfind (confirm_escrow (some s.taker) now2 sid
        (confirm_escrow (some s.maker) now1 sid st).2).2.escrowed_balances
      (sid, s.taker, s.taker_asset) = none := by
  have hmt' : ¬ s.taker = s.maker := fun h => hmt h.symm
  have hnl1 : ¬ s.expires_at < now1 := Nat.not_lt.mpr he1
  have hnl2 : ¬ s.expires_at < now2 := Nat.not_lt.mpr he2
  have hnb1 : ¬ mget st.balances (s.maker, s.maker_asset) < s.maker_amount :=
    Nat.not_lt.mpr hb1
  have hnb2 : ¬ mget st.balances (s.taker, s.taker_asset) < s.taker_amount :=
    Nat.not_lt.mpr hb2
  have has' : ¬ s.taker_asset = s.maker_asset := fun h => has h.symm
  refine ⟨?_, ?_, ?_, ?_, ?_, ?_, ?_, ?_⟩ <;>
    simp [confirm_escrow, confirm_escrow.confirmWith, execute_settlement,
      settlementStatusAt, hf, hm, ht, hmt, hmt', has, has', hnl1, hnl2, hnb1, hnb2,
      mfind_mset_self, mget_mset_self, mfind_mset_ne, mget_mset_ne,
      mfind_mdel_self, mfind_mdel_ne, mget_mdel_ne, Prod.mk.injEq]

/-- C6 witness: the spec's S3 scenario on the funded fixture — maker 1
escrows 10 `X` at time 5, taker 2 escrows 20 `Y` at time 6, the settlement
auto-executes to `Completed`. -/
theorem settlement_happy_path_witness :
    (confirm_escrow (some 1) 5 1 sFunded).1 = none ∧
    (confirm_escrow (some 2) 6 1 (confirm_escrow (some 1) 5 1 sFunded).2).1 = none ∧
    settlementStatusAt
      (confirm_escrow (some 2) 6 1 (confirm_escrow (some 1) 5 1 sFunded).2).2 1 =
      some .Completed ∧
    (mfind (confirm_escrow (some 2) 6 1
        (confirm_escrow (some 1) 5 1 sFunded).2).2.settlements 1).map
      (·.completed_at) = some (some 6) ∧
    mget (confirm_escrow (some 2) 6 1
        (confirm_escrow (some 1) 5 1 sFunded).2).2.balances (2, "X") =
      mget sFunded.balances (2, "X") + 10 ∧
    mget (confirm_escrow (some 2) 6 1
        (confirm_escrow (some 1) 5 1 sFunded).2).2.balances (1, "Y") =
      mget sFunded.balances (1, "Y") + 20 ∧
    mfind (confirm_escrow (some 2) 6 1
        (confirm_escrow (some 1) 5 1 sFunded).2).2.escrowed_balances (1, 1, "X") =
      none ∧
    mfind (confirm_escrow (some 2) 6 1
        (confirm_escrow (some 1) 5 1 sFunded).2).2.escrowed_balances (1, 2, "Y") =
      none :=
  settlement_happy_path sFunded wSettlement 1 5 6 (by decide) (by decide) (by decide)
    (by decide) (by decide) (by decide) (by decide) (by decide) (by decide)

theorem mfind_mem {K V : Type} [DecidableEq K] {m : AMap K V} {k : K} {v : V}
    (h : mfind m k = some v) : (k, v) ∈ m := by
  unfold mfind at h
  cases hfd : List.find? (fun e => decide (e.1 = k)) m with
  | none => rw [hfd] at h; simp at h
  | some e =>
    rw [hfd] at h
    have hm := List.mem_of_find?_eq_some hfd
    have hp := List.find?_some hfd
    have hk : e.1 = k := by simpa using hp
    have hv : e.2 = v := by simpa using h
    have : e = (k, v) := Prod.ext hk hv
    rwa [this] at hm

theorem isSome_mfind_mset {K V : Type} [DecidableEq K] (m : AMap K V) (k k' : K)
    (v : V) (h : (mfind m k').isSome) : (mfind (mset m k v) k').isSome := by
  by_cases he : k' = k
  · subst he; rw [mfind_mset_self]; rfl
  · rwa [mfind_mset_ne m k k' v he]

theorem depositInvOn_mset_none (tr : AMap Nat BridgeTransfer) (pd : AMap String Nat)
    (tid : Nat) (t' : BridgeTransfer) (hh : t'.source_tx_hash = none)
    (hInv : DepositInvOn tr pd) : DepositInvOn (mset tr tid t') pd := by
  obtain ⟨hreg, hinj⟩ := hInv
  constructor
  · intro e he h hhash
    rcases mem_of_mem_mset he with heq | ⟨hem, _⟩
    · rw [heq] at hhash; rw [hh] at hhash; exact absurd hhash (by simp)
    · exact hreg e hem h hhash
  · intro e1 he1 e2 he2 h hh1 hh2
    rcases mem_of_mem_mset he1 with heq1 | ⟨hem1, _⟩
    · rw [heq1] at hh1; rw [hh] at hh1; exact absurd hh1 (by simp)
    · rcases mem_of_mem_mset he2 with heq2 | ⟨hem2, _⟩
      · rw [heq2] at hh2; rw [hh] at hh2; exact absurd hh2 (by simp)
      · exact hinj e1 hem1 e2 hem2 h hh1 hh2

theorem depositInvOn_mset_keep (tr : AMap Nat BridgeTransfer) (pd : AMap String Nat)
    (tid : Nat) (t t' : BridgeTransfer) (hf : mfind tr tid = some t)
    (hh : t'.source_tx_hash = t.source_tx_hash)
    (hInv : DepositInvOn tr pd) : DepositInvOn (mset tr tid t') pd := by
  obtain ⟨hreg, hinj⟩ := hInv
  have htm : (tid, t) ∈ tr := mfind_mem hf
  constructor
  · intro e he h hhash
    rcases mem_of_mem_mset he with heq | ⟨hem, _⟩
    · rw [heq] at hhash
      exact hreg (tid, t) htm h (by rw [← hh]; exact hhash)
    · exact hreg e hem h hhash
  · intro e1 he1 e2 he2 h hh1 hh2
    rcases mem_of_mem_mset he1 with heq1 | ⟨hem1, hne1⟩ <;>
      rcases mem_of_mem_mset he2 with heq2 | ⟨hem2, hne2⟩
    · rw [heq1, heq2]
    · rw [heq1] at hh1 ⊢
      have hth : t.source_tx_hash = some h := by rw [← hh]; exact hh1
      exact (hinj (tid, t) htm e2 hem2 h hth hh2)
    · rw [heq2] at hh2 ⊢
      have hth : t.source_tx_hash = some h := by rw [← hh]; exact hh2
      exact (hinj e1 hem1 (tid, t) htm h hh1 hth)
    · exact hinj e1 hem1 e2 hem2 h hh1 hh2

theorem depositInvOn_report (tr : AMap Nat BridgeTransfer) (pd : AMap String Nat)
    (tid : Nat) (t' : BridgeTransfer) (h : String) (v : Nat)
    (hfresh : mfind pd h = none) (hh : t'.source_tx_hash = some h)
    (hInv : DepositInvOn tr pd) : DepositInvOn (mset tr tid t') (mset pd h v) := by
  obtain ⟨hreg, hinj⟩ := hInv
  constructor
  · intro e he h0 hhash
    rcases mem_of_mem_mset he with heq | ⟨hem, _⟩
    · rw [heq] at hhash
      rw [hh] at hhash
      have : h0 = h := by simpa using hhash.symm
      subst this
      rw [mfind_mset_self]; rfl
    · exact isSome_mfind_mset pd h h0 v (hreg e hem h0 hhash)
  · intro e1 he1 e2 he2 h0 hh1 hh2
    rcases mem_of_mem_mset he1 with heq1 | ⟨hem1, hne1⟩ <;>
      rcases mem_of_mem_mset he2 with heq2 | ⟨hem2, hne2⟩
    · rw [heq1, heq2]
    · exfalso
      rw [heq1, hh] at hh1
      have : h0 = h := by simpa using hh1.symm
      subst this
      have := hreg e2 hem2 h0 hh2
      rw [hfresh] at this
      exact absurd this (by simp)
    · exfalso
      rw [heq2, hh] at hh2
      have : h0 = h := by simpa using hh2.symm
      subst this
      have := hreg e1 hem1 h0 hh1
      rw [hfresh] at this
      exact absurd this (by simp)
    · exact hinj e1 hem1 e2 hem2 h0 hh1 hh2

theorem initiate_withdrawal_inv (caller : Option Nat) (now dc : Nat) (da a : String)
    (m : Nat) (st : BState) (hInv : DepositInv st) :
    DepositInv (initiate_withdrawal caller now dc da a m st).2 := by
  unfold Bridge.initiate_withdrawal
  cases caller with
  | none => exact hInv
  | some u =>
    cases hmc : mfind st.chain_configs dc with
    | none => exact hInv
    | some cfg =>
      dsimp only
      split_ifs <;>
        first
          | exact hInv
          | exact depositInvOn_mset_none _ _ _ _ rfl hInv

theorem report_deposit_inv (now sc : Nat) (tx sa : String) (r : Nat) (a : String)
    (m cf : Nat) (st : BState) (hInv : DepositInv st) :
    DepositInv (report_deposit now sc tx sa r a m cf st).2 := by
  unfold Bridge.report_deposit
  by_cases hdup : (mfind st.processed_deposits tx).isSome
  · rw [if_pos hdup]; exact hInv
  · rw [if_neg hdup]
    have hfresh : mfind st.processed_deposits tx = none :=
      Option.not_isSome_iff_eq_none.mp hdup
    cases hmc : mfind st.chain_configs sc with
    | none => exact hInv
    | some cfg =>
      dsimp only
      split_ifs <;>
        first
          | exact hInv
          | exact depositInvOn_mset_keep _ _ _ _ _ (mfind_mset_self _ _ _) rfl
              (depositInvOn_report _ _ _ _ _ _ hfresh rfl hInv)
          | exact depositInvOn_report _ _ _ _ _ _ hfresh rfl hInv

theorem update_confirmations_inv (now tid cf : Nat) (st : BState)
    (hInv : DepositInv st) : DepositInv (update_confirmations now tid cf st).2 := by
  unfold Bridge.update_confirmations
  cases hmf : mfind st.transfers tid with
  | none => exact hInv
  | some t =>
    dsimp only
    split_ifs <;>
      first
        | exact hInv
        | exact depositInvOn_mset_keep _ _ _ _ _ hmf rfl hInv

theorem approve_transfer_inv (caller : Option Nat) (now tid : Nat) (sig : List Nat)
    (st : BState) (hInv : DepositInv st) :
    DepositInv (approve_transfer caller now tid sig st).2 := by
  unfold Bridge.approve_transfer
  cases caller with
  | none => exact hInv
  | some v =>
    dsimp only
    cases hmv : mfind st.validators v with
    | none => exact hInv
    | some vc =>
      dsimp only
      cases hmf : mfind st.transfers tid with
      | none => split_ifs <;> exact hInv
      | some t =>
        dsimp only
        split_ifs <;>
          first
            | exact hInv
            | exact depositInvOn_mset_keep _ _ _ _ _ hmf rfl hInv

theorem execute_transfer_inv (now tid : Nat) (st : BState) (hInv : DepositInv st) :
    DepositInv (execute_transfer now tid st).2 := by
  unfold Bridge.execute_transfer
  cases hmf : mfind st.transfers tid with
  | none => exact hInv
  | some t =>
    dsimp only
    split_ifs <;>
      first
        | exact hInv
        | exact depositInvOn_mset_keep _ _ _ _ _ hmf rfl hInv

theorem complete_withdrawal_inv (now tid : Nat) (tx : String) (success : Bool)
    (st : BState) (hInv : DepositInv st) :
    DepositInv (complete_withdrawal now tid tx success st).2 := by
  unfold Bridge.complete_withdrawal
  cases hmf : mfind st.transfers tid with
  | none => exact hInv
  | some t =>
    dsimp only
    split_ifs <;>
      first
        | exact hInv
        | exact depositInvOn_mset_keep _ _ _ _ _ hmf rfl hInv

theorem bridge_claim_refund_inv (caller : Option Nat) (now tid : Nat) (st : BState)
    (hInv : DepositInv st) : DepositInv (Bridge.claim_refund caller now tid st).2 := by
  unfold Bridge.claim_refund
  cases caller with
  | none => exact hInv
  | some who =>
    dsimp only
    cases hmf : mfind st.transfers tid with
    | none => exact hInv
    | some t =>
      dsimp only
      split_ifs <;>
        first
          | exact hInv
          | exact depositInvOn_mset_keep _ _ _ _ _ hmf rfl hInv

theorem processLoop_inv (now : Nat) (q : List (Nat × Nat)) (p : Nat) (st : BState)
    (hInv : DepositInv st) : DepositInv (processLoop now q p st) := by
  induction q generalizing p st with
  | nil => exact hInv
  | cons head rest ih =>
    obtain ⟨ea, tid⟩ := head
    simp only [processLoop]
    split_ifs
    · exact hInv
    · exact hInv
    · cases hmf : mfind st.transfers tid with
      | none => dsimp only; exact ih p st hInv
      | some t =>
        dsimp only
        by_cases hex : expirable t.status
        · rw [if_pos hex]
          exact ih _ _ (depositInvOn_mset_keep _ _ _ _ _ hmf rfl hInv)
        · rw [if_neg hex]
          exact ih p st hInv

theorem execOp_inv (caller : Option Nat) (now : Nat) (op : BridgeOp) (st : BState)
    (hInv : DepositInv st) : DepositInv (execOp caller now op st).2 := by
  unfold Bridge.execOp
  split_ifs with hp
  · exact hInv
  · cases op with
    | InitiateWithdrawal c a s m => exact initiate_withdrawal_inv caller now c a s m st hInv
    | ReportDeposit c h sa r a m cf => exact report_deposit_inv now c h sa r a m cf st hInv
    | UpdateConfirmations t cf => exact update_confirmations_inv now t cf st hInv
    | ApproveTransfer t sg => exact approve_transfer_inv caller now t sg st hInv
    | ExecuteTransfer t => exact execute_transfer_inv now t st hInv
    | CompleteWithdrawal t h s => exact complete_withdrawal_inv now t h s st hInv
    | ClaimRefund t => exact bridge_claim_refund_inv caller now t st hInv
    | ProcessExpiredTransfers => exact processLoop_inv now st.expiration_queue 0 st hInv
    | ConfigureChain c => exact hInv
    | DisableChain c =>
      dsimp only
      unfold Bridge.disable_chain
      cases hmc : mfind st.chain_configs c <;> exact hInv
    | AddValidator c => exact hInv
    | RemoveValidator v =>
      dsimp only
      unfold Bridge.remove_validator
      cases hmv : mfind st.validators v <;> exact hInv
    | UpdateFees c b f =>
      dsimp only
      unfold Bridge.update_fees
      cases hmc : mfind st.chain_configs c <;> exact hInv
    | EmergencyPause => exact hInv
    | Resume => exact hInv

/-- C8: deposit deduplication.  (1) `ReportDeposit` with an already-recorded
`tx_hash` fails with `DuplicateDeposit` and makes no state change (the index
check precedes every write).  (2) The deduplication invariant `DepositInv`
— every stored transfer's source hash is registered in
`processed_deposits`, and no two distinct transfer entries share a source
hash — is preserved by every bridge operation.  (3) Under the invariant, no
two distinct inbound `Completed` transfers share a `source_tx_hash`. -/
theorem report_deposit_dedup :
    (∀ (now sc : Nat) (tx sa : String) (r : Nat) (a : String) (m cf : Nat)
      (st : BState), (mfind st.processed_deposits tx).isSome →
      report_deposit now sc tx sa r a m cf st = (some .DuplicateDeposit, st)) ∧
    (∀ (caller : Option Nat) (now : Nat) (op : BridgeOp) (st : BState),
      DepositInv st → DepositInv (execOp caller now op st).2) ∧
    (∀ st : BState, DepositInv st →
      ∀ e1 ∈ st.transfers, ∀ e2 ∈ st.transfers, e1.1 ≠ e2.1 →
        e1.2.direction = .Inbound → e1.2.status = .Completed →
        e2.2.direction = .Inbound → e2.2.status = .Completed →
        ¬ ∃ h : String, e1.2.source_tx_hash = some h ∧
          e2.2.source_tx_hash = some h) := by
  refine ⟨?_, ?_, ?_⟩
  · intro now sc tx sa r a m cf st hdup
    unfold Bridge.report_deposit
    rw [if_pos hdup]
  · intro caller now op st hInv
    exact execOp_inv caller now op st hInv
  · rintro st hInv e1 he1 e2 he2 hne _ _ _ _ ⟨h, hh1, hh2⟩
    exact hne (hInv.2 e1 he1 e2 he2 h hh1 hh2)

/-- C8 witness: the second `ReportDeposit` of hash `h1` on `wdState1` fails
with `DuplicateDeposit` and returns the state untouched; the invariant
holds of `wdState1` and is preserved by a further `ClaimRefund` operation;
and the invariant at `wdFailed` separates the completed inbound transfer 1
from any distinct completed inbound transfer. -/
theorem report_deposit_dedup_witness :
    report_deposit 9 1 "h1" "s2" 2 "T" 50 1 wdState1 =
      (some .DuplicateDeposit, wdState1) ∧
    DepositInv (execOp (some 1) 0 (.ClaimRefund 2) wdFailed).2 ∧
    (∀ e1 ∈ wdFailed.transfers, ∀ e2 ∈ wdFailed.transfers, e1.1 ≠ e2.1 →
      e1.2.direction = .Inbound → e1.2.status = .Completed →
      e2.2.direction = .Inbound → e2.2.status = .Completed →
      ¬ ∃ h : String, e1.2.source_tx_hash = some h ∧
        e2.2.source_tx_hash = some h) :=
  ⟨report_deposit_dedup.1 9 1 "h1" "s2" 2 "T" 50 1 wdState1 (by decide),
   report_deposit_dedup.2.1 (some 1) 0 (.ClaimRefund 2) wdFailed (by decide),
   report_deposit_dedup.2.2 wdFailed (by decide)⟩

end Theorems

end AxelarX
